import Mathlib

/-!
# web3-robust-formatting, verified

A shallow embedding of the formatting engine and the robust
normalization/diagnostics pipeline of the web3-robust-formatting
repository, with theorems settling the frozen claims about it.

Modelling conventions:
* JS numbers are modelled as exact rationals (`Rat`) plus explicit
  non-finite markers; floating-point rounding noise is outside the model.
* JS bigints are `Int`, JS strings are `String`.
* The host services the code calls into (`Intl.NumberFormat` for the
  en-US locale, the viem `formatUnits`/`parseUnits` helpers, and the
  primitives `Number`, `String`, `BigInt`, `trim`) are modelled as
  executable Lean functions implementing their documented behaviour.
  The locale argument is carried through faithfully but the rendering
  model implements the en-US locale data, the only locale the claims
  and the repository tests exercise.
* Code that can throw is embedded in `Except String`; total code is a
  plain function.  The robust wrappers never throw, which in the
  embedding is just totality.
-/

set_option allowUnsafeReducibility true

attribute [semireducible] Rat.add Rat.mul Rat.inv Rat.sub Rat.ofScientific

/-! ## Character and digit utilities (model of the host string rendering) -/

/-- One decimal digit as a character. -/
def digitChar (n : ℕ) : Char :=
  if n = 0 then '0' else if n = 1 then '1' else if n = 2 then '2'
  else if n = 3 then '3' else if n = 4 then '4' else if n = 5 then '5'
  else if n = 6 then '6' else if n = 7 then '7' else if n = 8 then '8' else '9'

/-- Decimal digits of a natural number, most significant first.  Fuel makes
the recursion structural so the kernel can evaluate it. -/
def natToDigitsAux : ℕ → ℕ → List Char → List Char
  | 0, _, acc => acc
  | fuel + 1, n, acc =>
    if n < 10 then digitChar n :: acc
    else natToDigitsAux fuel (n / 10) (digitChar (n % 10) :: acc)

/-- Decimal digits of a natural number, most significant first. -/
def natToDigits (n : ℕ) : List Char :=
  natToDigitsAux (n + 1) n []

/-- Insert a comma after every group of three characters, where the input
list is a digit string reversed (least significant digit first).  This is
the en-US grouping rule of the host number formatter. -/
def commasRev : List Char → List Char
  | a :: b :: c :: d :: rest => a :: b :: c :: ',' :: commasRev (d :: rest)
  | l => l

/-- Group the digits of an integer part with commas (en-US). -/
def groupDigits (ds : List Char) : List Char :=
  (commasRev ds.reverse).reverse

/-- Drop trailing zero characters from a reversed fraction while its length
stays above the minimum fraction-digit count. -/
def trimRevZeros : List Char → ℕ → List Char
  | [], _ => []
  | c :: rest, minLen =>
    if c = '0' ∧ minLen ≤ rest.length then trimRevZeros rest minLen else c :: rest

/-- Membership in the digit character range. -/
def isDigitChar (c : Char) : Bool :=
  '0' ≤ c && c ≤ '9'

/-! ## Rounding -/

/-- The JS `Math.round`: round half toward positive infinity. -/
def jsMathRound (q : ℚ) : ℤ :=
  ⌊q + 1 / 2⌋

/-- Round half away from zero, the default rounding mode (halfExpand) of
the host `Intl.NumberFormat` service. -/
def roundHalfAway (q : ℚ) : ℤ :=
  if q < 0 then -⌊-q + 1 / 2⌋ else ⌊q + 1 / 2⌋

/-- The rounding step of the numeric formatter:
`rounded = Math.round(num * 10 ** d) / 10 ** d`. -/
def jsRoundTo (q : ℚ) (d : ℕ) : ℚ :=
  (jsMathRound (q * 10 ^ d) : ℚ) / 10 ^ d

/-! ## Model of the Intl.NumberFormat host service (en-US locale data) -/

/-- Split the rounded scaled value into integer digits and fraction digits:
`maxFrac` fraction digits, zero padded on the left so the integer part has
at least one digit. -/
def splitScaledDigits (m : ℕ) (maxFrac : ℕ) : List Char × List Char :=
  let digits := natToDigits m
  let padded :=
    if digits.length < maxFrac + 1 then
      List.replicate (maxFrac + 1 - digits.length) '0' ++ digits
    else digits
  (padded.take (padded.length - maxFrac), padded.drop (padded.length - maxFrac))

/-- Character-level model of standard notation: round to `maxFrac` fraction
digits (half away from zero), render at least `minFrac` fraction digits
trimming trailing zeros beyond that, group the integer part with commas
when `grouping` is set, and prepend a minus sign for negative input. -/
def intlStandardChars (q : ℚ) (minFrac maxFrac : ℕ) (grouping : Bool) : List Char :=
  let n := roundHalfAway (q * 10 ^ maxFrac)
  let intDigits := (splitScaledDigits n.natAbs maxFrac).1
  let fracDigits := (splitScaledDigits n.natAbs maxFrac).2
  let fracTrimmed := (trimRevZeros fracDigits.reverse minFrac).reverse
  let intPart := if grouping then groupDigits intDigits else intDigits
  (if q < 0 then ['-'] else []) ++ intPart ++
    (if fracTrimmed.isEmpty then [] else '.' :: fracTrimmed)

/-- Standard notation of the Intl.NumberFormat model. -/
def intlStandardFormat (q : ℚ) (minFrac maxFrac : ℕ) (grouping : Bool) : String :=
  ⟨intlStandardChars q minFrac maxFrac grouping⟩

/-- Tier of the en-US compact notation: 0 = none, 1 = K, 2 = M, 3 = B, 4 = T. -/
def compactTier (a : ℚ) : ℕ :=
  if a < 1000 then 0
  else if a < 10 ^ 6 then 1
  else if a < 10 ^ 9 then 2
  else if a < 10 ^ 12 then 3
  else 4

/-- Suffix of an en-US compact tier. -/
def compactSuffix (k : ℕ) : List Char :=
  if k = 0 then [] else if k = 1 then ['K'] else if k = 2 then ['M']
  else if k = 3 then ['B'] else ['T']

/-- Tier of the en-US compact notation after the rounding bump: when
rounding at `maxFrac` digits carries the scaled value to 1000, the next
tier takes over (999,999 at two digits is 1.00M, not 1,000.00K). -/
def compactTierBumped (a : ℚ) (maxFrac : ℕ) : ℕ :=
  let k := compactTier a
  if k < 4 ∧ 1000 * 10 ^ maxFrac ≤ roundHalfAway (a / 1000 ^ k * 10 ^ maxFrac) then k + 1
  else k

/-- Character-level model of en-US compact notation: pick the tier from the
magnitude (with the rounding bump), divide by its power of 1000, and render
like standard notation with the tier suffix. -/
def intlCompactChars (q : ℚ) (minFrac maxFrac : ℕ) (grouping : Bool) : List Char :=
  let a := |q|
  let k := compactTierBumped a maxFrac
  let n := roundHalfAway (a / 1000 ^ k * 10 ^ maxFrac)
  let intDigits := (splitScaledDigits n.natAbs maxFrac).1
  let fracDigits := (splitScaledDigits n.natAbs maxFrac).2
  let fracTrimmed := (trimRevZeros fracDigits.reverse minFrac).reverse
  let intPart := if grouping then groupDigits intDigits else intDigits
  (if q < 0 then ['-'] else []) ++ intPart ++
    (if fracTrimmed.isEmpty then [] else '.' :: fracTrimmed) ++ compactSuffix k

/-- Compact notation of the Intl.NumberFormat model. -/
def intlCompactFormat (q : ℚ) (minFrac maxFrac : ℕ) (grouping : Bool) : String :=
  ⟨intlCompactChars q minFrac maxFrac grouping⟩

/-! ## JS numbers

A JS number is modelled as an exact rational when finite, plus the three
non-finite values.  Floating-point representation error is outside the
model: the rational carries the decimal value the program means. -/

/-- A JS number. -/
inductive JSNum where
  | fin (q : ℚ)
  | nan
  | inf
  | ninf
deriving DecidableEq, Repr

/-- The JS `Number.isFinite`. -/
def jsIsFinite : JSNum → Bool
  | .fin _ => true
  | _ => false

/-- The JS `Number.isInteger`. -/
def jsIsInteger : JSNum → Bool
  | .fin q => q.den = 1
  | _ => false

/-- The JS `Number.MAX_SAFE_INTEGER`. -/
def maxSafeInteger : ℕ := 9007199254740991

/-- The JS `Number.isSafeInteger`. -/
def jsIsSafeInteger : JSNum → Bool
  | .fin q => q.den = 1 && q.num.natAbs ≤ maxSafeInteger
  | _ => false

/-- The JS `String.prototype.trim` (the whitespace alphabet restricted to
the characters the repository can meet). -/
def isJsSpace (c : Char) : Bool :=
  c = ' ' || c = '\t' || c = '\n' || c = '\r'

/-- Trim leading and trailing whitespace, the JS way. -/
def jsTrim (s : String) : String :=
  ⟨((s.data.dropWhile isJsSpace).reverse.dropWhile isJsSpace).reverse⟩

/-- Least exponent `f` with `q * 10 ^ f` integral, searched up to a fuel
bound; every finite JS number has one because doubles are dyadic. -/
def decExpAux : ℕ → ℚ → ℕ → Option ℕ
  | 0, _, _ => none
  | fuel + 1, q, f => if (q * 10 ^ f).den = 1 then some f else decExpAux fuel q (f + 1)

/-- Least exponent giving an integral scaling of `q`. -/
def decExp (q : ℚ) : Option ℕ :=
  decExpAux 400 q 0

/-- Decimal rendering of a rational, the model of the JS `String(number)`
for finite values.  Values whose denominator is not 10-smooth cannot come
from a double and fall back to the floor (unreached by the claims). -/
def ratToDecimalChars (q : ℚ) : List Char :=
  let sign : List Char := if q < 0 then ['-'] else []
  match decExp |q| with
  | some f =>
    let m := (|q| * 10 ^ f).num.natAbs
    if f = 0 then sign ++ natToDigits m
    else
      let (intDigits, fracDigits) := splitScaledDigits m f
      sign ++ intDigits ++ '.' :: fracDigits
  | none => sign ++ natToDigits ⌊|q|⌋.natAbs

/-- The JS `String(number)`. -/
def jsNumToString : JSNum → String
  | .fin q => ⟨ratToDecimalChars q⟩
  | .nan => "NaN"
  | .inf => "Infinity"
  | .ninf => "-Infinity"

/-- Parse a run of decimal digits: value, digit count, rest. -/
def parseDigitsAux : List Char → ℕ → ℕ → ℕ × ℕ × List Char
  | c :: rest, acc, cnt =>
    if isDigitChar c then parseDigitsAux rest (acc * 10 + (c.toNat - 48)) (cnt + 1)
    else (acc, cnt, c :: rest)
  | [], acc, cnt => (acc, cnt, [])

/-- Parse the optional exponent tail of a JS numeric literal.  Absent
exponent is exponent zero; an exponent marker without digits fails. -/
def jsParseExpTail : List Char → Option (ℤ × List Char)
  | 'e' :: rest =>
    match rest with
    | '+' :: r => (fun (v, c, rest) => if c = 0 then none else some ((v : ℤ), rest)) (parseDigitsAux r 0 0)
    | '-' :: r => (fun (v, c, rest) => if c = 0 then none else some (-(v : ℤ), rest)) (parseDigitsAux r 0 0)
    | r => (fun (v, c, rest) => if c = 0 then none else some ((v : ℤ), rest)) (parseDigitsAux r 0 0)
  | 'E' :: rest =>
    match rest with
    | '+' :: r => (fun (v, c, rest) => if c = 0 then none else some ((v : ℤ), rest)) (parseDigitsAux r 0 0)
    | '-' :: r => (fun (v, c, rest) => if c = 0 then none else some (-(v : ℤ), rest)) (parseDigitsAux r 0 0)
    | r => (fun (v, c, rest) => if c = 0 then none else some ((v : ℤ), rest)) (parseDigitsAux r 0 0)
  | rest => some (0, rest)

/-- Assemble a finite value from parsed sign, integer, fraction, exponent. -/
def assembleDecimal (sign : ℤ) (iv : ℕ) (fv : ℕ) (fc : ℕ) (ev : ℤ) : ℚ :=
  let base : ℚ := (iv : ℚ) + (fv : ℚ) / 10 ^ fc
  let scaled := if 0 ≤ ev then base * 10 ^ ev.toNat else base / 10 ^ (-ev).toNat
  (sign : ℚ) * scaled

/-- The JS `Number(string)`: trims, empty means zero, understands an
optional sign, `Infinity`, and decimal notation with an optional exponent;
everything else is NaN.  The hexadecimal, octal and binary literal forms
are not modelled; nothing in the repository feeds them. -/
def jsParseNumber (s : String) : JSNum :=
  match (jsTrim s).data with
  | [] => .fin 0
  | cs =>
    let (sign, body) : ℤ × List Char :=
      match cs with
      | '+' :: r => (1, r)
      | '-' :: r => (-1, r)
      | r => (1, r)
    if body = "Infinity".data then (if sign < 0 then .ninf else .inf)
    else
      match parseDigitsAux body 0 0 with
      | (iv, ic, rest) =>
        let (fv, fc, rest) :=
          match rest with
          | '.' :: r => parseDigitsAux r 0 0
          | r => (0, 0, r)
        if ic + fc = 0 then .nan
        else
          match jsParseExpTail rest with
          | some (ev, []) => .fin (assembleDecimal sign iv fv fc ev)
          | _ => .nan

/-- The JS `BigInt(string)`: trims, empty means zero, optional sign and
decimal digits; anything else throws (modelled as `none`).  Hexadecimal
and similar radix forms are not modelled. -/
def jsBigIntOfString (s : String) : Option ℤ :=
  match (jsTrim s).data with
  | [] => some 0
  | cs =>
    let (sign, body) : ℤ × List Char :=
      match cs with
      | '+' :: r => (1, r)
      | '-' :: r => (-1, r)
      | r => (1, r)
    match parseDigitsAux body 0 0 with
    | (v, c, []) => if c = 0 then none else some (sign * v)
    | _ => none

/-- The regular expression of `normalizeBigIntValue`, an optional minus
sign followed by one or more digits. -/
def isSignedDigits (s : String) : Bool :=
  match s.data with
  | '-' :: r => !r.isEmpty && r.all isDigitChar
  | r => !r.isEmpty && r.all isDigitChar

/-- Integer value of a string accepted by `isSignedDigits`. -/
def signedDigitsValue (s : String) : ℤ :=
  match s.data with
  | '-' :: r => -((parseDigitsAux r 0 0).1 : ℤ)
  | r => ((parseDigitsAux r 0 0).1 : ℤ)

/-- The regular expression of `normalizeDecimals`, one or more digits. -/
def isDigitsOnly (s : String) : Bool :=
  !s.data.isEmpty && s.data.all isDigitChar

/-! ## viem formatUnits / parseUnits (host library model) -/

/-- The viem `formatUnits`: exact decimal string of a base-unit integer at
`decimals` places, trailing fraction zeros trimmed, no grouping. -/
def formatUnits (n : ℤ) (decimals : ℕ) : String :=
  let digits := natToDigits n.natAbs
  let padded :=
    if digits.length < decimals then List.replicate (decimals - digits.length) '0' ++ digits
    else digits
  let intDigits := padded.take (padded.length - decimals)
  let fracDigits := (trimRevZeros (padded.drop (padded.length - decimals)).reverse 0).reverse
  ⟨(if n < 0 then ['-'] else []) ++ (if intDigits.isEmpty then ['0'] else intDigits) ++
    (if fracDigits.isEmpty then [] else '.' :: fracDigits)⟩

/-- The viem `parseUnits`: scale a decimal string to an integer at
`decimals` places, rounding excess fraction digits half up on the
magnitude; a string that is not optional-sign digits, optional point,
digits fails. -/
def parseUnits (value : String) (decimals : ℕ) : Except String ℤ :=
  let cs := value.data
  let (neg, body) : Bool × List Char :=
    match cs with
    | '-' :: r => (true, r)
    | r => (false, r)
  match parseDigitsAux body 0 0 with
  | (iv, _, rest) =>
    let (fv, fc, rest) :=
      match rest with
      | '.' :: r => parseDigitsAux r 0 0
      | r => (0, 0, r)
    if rest ≠ [] then
      .error ("Number \"" ++ value ++ "\" is not a valid decimal number.")
    else
      let scaled :=
        if fc ≤ decimals then iv * 10 ^ decimals + fv * 10 ^ (decimals - fc)
        else
          let cut := 10 ^ (fc - decimals)
          iv * 10 ^ decimals + (fv / cut + if cut ≤ 2 * (fv % cut) then 1 else 0)
      .ok ((if neg then -1 else 1) * (scaled : ℤ))

deriving instance DecidableEq for Except

/-! ## The numeric formatter (numberToViewNumber.ts) -/

/-- The input of `formatNumberToViewNumber` and of the percent formatter:
`number | string | null`, with absence (`undefined`) kept separate from
`null` because the percent formatter treats them differently. -/
inductive NumberInput where
  | undef
  | null
  | num (n : JSNum)
  | str (s : String)
deriving DecidableEq, Repr

/-- Options of the numeric formatter.  Absent fields take the documented
defaults inside the function body, exactly as the source destructuring
does; `maxDisplay` has no default. -/
structure FormatPriceNewOptions where
  locale : Option String := none
  standardDecimals : Option ℕ := none
  compactDecimals : Option ℕ := none
  compactThreshold : Option ℚ := none
  minDisplay : Option ℚ := none
  maxDisplay : Option ℚ := none
deriving DecidableEq, Repr

/-- Result of the numeric formatter; every field is optional in the
source type and branches set different subsets. -/
structure ViewNumber where
  belowMin : Option Bool := none
  aboveMax : Option Bool := none
  symbol : Option String := none
  originalValue : Option String := none
  originalValueNumber : Option JSNum := none
  compact : Option String := none
  viewValue : Option String := none
  sign : Option String := none
  decimals : Option ℕ := none
deriving DecidableEq, Repr

/-- The numeric formatter.  The symbol argument is optional with JS
default "$" (the robust wrapper can pass it absent). -/
def formatNumberToViewNumber (input : NumberInput) (symbol : Option String)
    (opts : FormatPriceNewOptions) : Option ViewNumber :=
  match input with
  | .undef => none
  | .null => none
  | _ =>
    let symbol := symbol.getD "$"
    let standardDecimals := opts.standardDecimals.getD 2
    let compactDecimals := opts.compactDecimals.getD 2
    let compactThreshold := opts.compactThreshold.getD 1000000
    let minDisplay := opts.minDisplay.getD (1 / 100)
    let originalValue :=
      match input with
      | .str s => s
      | .num n => jsNumToString n
      | _ => ""
    let num : JSNum :=
      match input with
      | .num n => n
      | .str s => jsParseNumber s
      | _ => .nan
    match num with
    | .fin q =>
      if q = 0 then
        some { belowMin := some false, aboveMax := some false, symbol := some symbol,
               originalValue := some originalValue,
               compact := some (intlCompactFormat 0 compactDecimals compactDecimals true),
               viewValue := some "0.00", originalValueNumber := some num }
      else
        let rounded := jsRoundTo q standardDecimals
        let sign := if rounded < 0 then "-" else ""
        let absRounded := |rounded|
        let belowMin := decide (absRounded < minDisplay)
        let compact := intlCompactFormat |q| compactDecimals compactDecimals true
        let aboveMax :=
          match opts.maxDisplay with
          | some m => decide (m < absRounded)
          | none => false
        let viewValue :=
          if belowMin then intlStandardFormat minDisplay standardDecimals standardDecimals true
          else if aboveMax && opts.maxDisplay.isSome then
            intlStandardFormat (opts.maxDisplay.getD 0) standardDecimals standardDecimals true
          else if compactThreshold ≤ absRounded then
            intlCompactFormat absRounded compactDecimals compactDecimals true
          else intlStandardFormat absRounded standardDecimals standardDecimals true
        some { sign := some sign, belowMin := some belowMin, aboveMax := some aboveMax,
               symbol := some symbol, originalValue := some originalValue,
               compact := some compact, viewValue := some viewValue,
               originalValueNumber := some num }
    | _ =>
      some { belowMin := some false, aboveMax := some false, symbol := some symbol,
             originalValue := some originalValue, compact := some originalValue,
             viewValue := some originalValue, originalValueNumber := some num }

/-! ## The percent formatter (numberToViewPercentage.ts) -/

/-- Options of the percent formatter, in percent units. -/
structure FormatPercentOptions where
  locale : Option String := none
  standardDecimals : Option ℕ := none
  compactDecimals : Option ℕ := none
  compactThreshold : Option ℚ := none
  minDisplay : Option ℚ := none
  maxDisplay : Option ℚ := none
deriving DecidableEq, Repr

/-- Result of the percent formatter; every field is required in the
source type, and the function always returns one. -/
structure ViewPercent where
  belowMin : Bool
  aboveMax : Bool
  symbol : String
  originalValue : String
  originalValueNumber : JSNum
  compact : String
  viewValue : String
  sign : String
deriving DecidableEq, Repr

/-- The JS `String(x)` over the percent formatter input type, used when
the percent value is not finite. -/
def percentInputToString : NumberInput → String
  | .str s => s
  | .num n => jsNumToString n
  | .null => "null"
  | .undef => "undefined"

/-- The percent formatter.  There is no absent-input check: `Number(null)`
is zero and `Number(undefined)` is NaN, and both flow on. -/
def formatPercentToViewPercent (input : NumberInput) (opts : FormatPercentOptions) :
    ViewPercent :=
  let standardDecimals := opts.standardDecimals.getD 2
  let compactDecimals := opts.compactDecimals.getD 2
  let compactThreshold := opts.compactThreshold.getD 1000000
  let minDisplay := opts.minDisplay.getD (1 / 100)
  let numRaw : JSNum :=
    match input with
    | .num n => n
    | .str s => jsParseNumber s
    | .null => .fin 0
    | .undef => .nan
  let percent : JSNum :=
    match numRaw with
    | .fin q => .fin (q * 100)
    | _ => .nan
  match percent with
  | .fin p =>
    let originalValue := jsNumToString (.fin p)
    if p = 0 then
      { belowMin := false, aboveMax := false, symbol := "%",
        originalValue := originalValue,
        compact := intlCompactFormat 0 compactDecimals compactDecimals true,
        viewValue := "0.00", originalValueNumber := numRaw, sign := "" }
    else
      let rounded := jsRoundTo p standardDecimals
      let sign := if rounded < 0 then "-" else ""
      let absRounded := |rounded|
      let belowMin := decide (absRounded < minDisplay)
      let aboveMax :=
        match opts.maxDisplay with
        | some m => decide (m < absRounded)
        | none => false
      let compact := intlCompactFormat |p| compactDecimals compactDecimals true
      let (viewValue, sign) :=
        if belowMin then
          (intlStandardFormat minDisplay standardDecimals standardDecimals true,
            if p < 0 && sign = "" then "-" else sign)
        else if aboveMax && opts.maxDisplay.isSome then
          (intlStandardFormat (opts.maxDisplay.getD 0) standardDecimals standardDecimals true,
            sign)
        else if compactThreshold ≤ absRounded then
          (intlCompactFormat absRounded compactDecimals compactDecimals true, sign)
        else (intlStandardFormat absRounded standardDecimals standardDecimals true, sign)
      { belowMin := belowMin, aboveMax := aboveMax, symbol := "%",
        originalValue := originalValue, compact := compact, viewValue := viewValue,
        originalValueNumber := numRaw, sign := sign }
  | _ =>
    let originalValue := percentInputToString input
    { belowMin := false, aboveMax := false, symbol := "%",
      originalValue := originalValue, compact := originalValue,
      viewValue := originalValue, originalValueNumber := numRaw, sign := "" }

/-! ## The token-amount formatter (bigIntToViewTokenAmount.ts) -/

/-- The bigint-like union `bigint | string | number` of the token-amount
input field. -/
inductive BigLike where
  | big (n : ℤ)
  | str (s : String)
  | num (n : JSNum)
deriving DecidableEq, Repr

/-- Input bundle of the token-amount formatter (FetchBigInt). -/
structure FetchBigInt where
  bigIntValue : Option BigLike := none
  symbol : Option String := none
  decimals : Option ℕ := none
deriving DecidableEq, Repr

/-- Formatting configuration of the token-amount formatter. -/
structure FormatConfig where
  locale : Option String := none
  decimals : Option ℕ := none
  placeholder : Option String := none
  singleDigitDecimals : Option ℕ := none
  twoDigitDecimals : Option ℕ := none
  compactDecimals : Option ℕ := none
  minDisplay : Option ℚ := none
  maxDisplay : Option ℚ := none
deriving DecidableEq, Repr

/-- Display shape of the token-amount formatter (ViewBigInt). -/
structure ViewBigInt where
  originalValue : Option String := none
  viewValue : String
  compact : String
  bigIntValue : Option ℤ := none
  symbol : Option String := none
  decimals : Option ℕ := none
  belowMin : Bool
  aboveMax : Bool
  sign : Option String := none
deriving DecidableEq, Repr

/-- The JS `String.prototype.toUpperCase` restricted to ASCII. -/
def jsToUpperCase (s : String) : String :=
  ⟨s.data.map fun c => if 'a' ≤ c ∧ c ≤ 'z' then Char.ofNat (c.toNat - 32) else c⟩

/-- The always-compact builder of the token-amount module: sign kept from
the input, magnitude formatted compact and upper-cased. -/
def formatCompact (n : ℚ) (locale : String) (decimals : ℕ) : String :=
  let sign := if n < 0 then "-" else ""
  let core := jsToUpperCase (intlCompactFormat |n| decimals decimals true)
  sign ++ core

/-- Options of `formatViewValueByMagnitude`, after the caller applied the
config defaults. -/
structure MagnitudeOpts where
  singleDigitDecimals : ℕ
  twoDigitDecimals : ℕ
  compactDecimals : ℕ
  minDisplay : Option ℚ := none
  maxDisplay : Option ℚ := none
deriving DecidableEq, Repr

/-- Result of `formatViewValueByMagnitude`. -/
structure MagnitudeResult where
  viewValue : String
  belowMin : Bool
  aboveMax : Bool
  sign : String
deriving DecidableEq, Repr

/-- The magnitude-banded standard view of the token-amount formatter:
floor sentinel, then ceiling, then the below-ten band without grouping,
the below-a-million band with grouping, and compact above. -/
def formatViewValueByMagnitude (n : ℚ) (locale : String) (opts : MagnitudeOpts) :
    MagnitudeResult :=
  let abs := |n|
  let sign := if n < 0 then "-" else ""
  let hasMin := opts.minDisplay.isSome
  let hasMax := opts.maxDisplay.isSome
  if hasMin ∧ 0 < abs ∧ abs < opts.minDisplay.getD 0 then
    let floor := intlStandardFormat (opts.minDisplay.getD 0)
      opts.singleDigitDecimals opts.singleDigitDecimals false
    { viewValue := sign ++ floor, belowMin := true, aboveMax := false, sign := sign }
  else if hasMax ∧ opts.maxDisplay.getD 0 < abs then
    let ceil := intlStandardFormat (opts.maxDisplay.getD 0) 0 opts.twoDigitDecimals true
    { viewValue := ceil, belowMin := false, aboveMax := true, sign := sign }
  else if abs < 10 then
    let s := intlStandardFormat abs 0 opts.singleDigitDecimals false
    { viewValue := sign ++ s, belowMin := false, aboveMax := false, sign := sign }
  else if abs < 1000000 then
    let s := intlStandardFormat abs 0 opts.twoDigitDecimals true
    { viewValue := sign ++ s, belowMin := false, aboveMax := false, sign := sign }
  else
    let compact := jsToUpperCase (intlCompactFormat abs opts.compactDecimals opts.compactDecimals true)
    { viewValue := sign ++ compact, belowMin := false, aboveMax := false, sign := sign }

/-- Coerce the bigint-like union to a bigint the way the source does with
`typeof x === "bigint" ? x : BigInt(String(x))`; a failing conversion is
the thrown SyntaxError of the host `BigInt`. -/
def bigLikeToBigInt : BigLike → Except String ℤ
  | .big n => .ok n
  | .str s =>
    match jsBigIntOfString s with
    | some n => .ok n
    | none => .error ("Cannot convert " ++ s ++ " to a BigInt")
  | .num q =>
    match jsBigIntOfString (jsNumToString q) with
    | some n => .ok n
    | none => .error ("Cannot convert " ++ jsNumToString q ++ " to a BigInt")

/-- The token-amount formatter.  Missing amount or decimals returns
absent; the bigint coercion can throw; zero and non-finite fall back as
in the numeric formatter; the standard view is fixed-decimals when the
config forces a precision and magnitude-banded otherwise. -/
def formatBigIntToViewTokenAmount (data : Option FetchBigInt) (config : FormatConfig) :
    Except String (Option ViewBigInt) := do
  let locale := config.locale.getD "en-US"
  let fixedDec := config.decimals
  let singleDigitDecimals := config.singleDigitDecimals.getD 6
  let twoDigitDecimals := config.twoDigitDecimals.getD 2
  let compactDecimals := config.compactDecimals.getD 2
  match data with
  | none => return none
  | some data =>
    match data.bigIntValue, data.decimals with
    | none, _ => return none
    | _, none => return none
    | some bl, some tokenDecimals =>
      let symbol := data.symbol
      let bigIntValue ← bigLikeToBigInt bl
      let raw := formatUnits bigIntValue tokenDecimals
      match jsParseNumber raw with
      | .fin q =>
        if q = 0 then
          return some { originalValue := some raw,
                        viewValue := "0.00",
                        compact := intlCompactFormat 0 compactDecimals compactDecimals true,
                        bigIntValue := some bigIntValue,
                        symbol := symbol,
                        decimals := some tokenDecimals,
                        belowMin := false,
                        aboveMax := false }
        else
          match fixedDec with
          | some fd =>
            let sign := if q < 0 then "-" else ""
            let abs := |q|
            let std := intlStandardFormat abs fd fd true
            let viewValue := sign ++ std
            let belowMin :=
              match config.minDisplay with
              | some m => decide (0 < abs ∧ abs < m)
              | none => false
            let viewValue :=
              if belowMin then
                sign ++ intlStandardFormat (config.minDisplay.getD 0)
                  singleDigitDecimals singleDigitDecimals false
              else viewValue
            return some { originalValue := some raw,
                          viewValue := viewValue,
                          compact := formatCompact q locale compactDecimals,
                          bigIntValue := some bigIntValue,
                          symbol := symbol,
                          decimals := some tokenDecimals,
                          belowMin := belowMin,
                          aboveMax := false,
                          sign := some sign }
          | none =>
            let res := formatViewValueByMagnitude q locale
              { singleDigitDecimals := singleDigitDecimals,
                twoDigitDecimals := twoDigitDecimals,
                compactDecimals := compactDecimals,
                minDisplay := config.minDisplay, maxDisplay := config.maxDisplay }
            return some { originalValue := some raw,
                          viewValue := res.viewValue,
                          compact := formatCompact q locale compactDecimals,
                          bigIntValue := some bigIntValue,
                          symbol := symbol,
                          decimals := some tokenDecimals,
                          belowMin := res.belowMin,
                          aboveMax := res.aboveMax,
                          sign := some res.sign }
      | _ =>
        return some { originalValue := some raw,
                      viewValue := raw,
                      compact := raw,
                      bigIntValue := some bigIntValue,
                      symbol := symbol,
                      decimals := some tokenDecimals,
                      belowMin := false,
                      aboveMax := false }

/-! ## The scaled-integer formatter (bigIntToViewNumber.ts) -/

/-- The bigint-or-string input union of the scaled-integer formatter. -/
inductive BigIntInput where
  | big (n : ℤ)
  | str (s : String)
deriving DecidableEq, Repr

/-- The scaled-integer formatter: absent decimals or input returns
absent, an unparseable input throws, otherwise the base units become the
exact decimal string and the numeric formatter takes over, the
decimal-place count attached to its result. -/
def formatBigIntToViewNumber (input : Option BigIntInput) (decimals : Option ℕ)
    (symbol : Option String) (opts : FormatPriceNewOptions) :
    Except String (Option ViewNumber) := do
  match decimals, input with
  | none, _ => return none
  | _, none => return none
  | some d, some input =>
    let base : ℤ ←
      match input with
      | .big n => pure n
      | .str s =>
        match jsBigIntOfString s with
        | some n => pure n
        | none =>
          throw "formatBigIntToViewNumber: `input` must be a bigint or bigint-like string"
    let human := formatUnits base d
    let res := formatNumberToViewNumber (.str human) symbol opts
    return some { res.getD {} with decimals := some d }

/-! ## The robust layer (robust-formatting.ts)

Unknown-typed runtime values are modelled by a closed union of the JS
runtime types the normalizers branch on. -/

/-- A runtime value of unknown type at the robust boundary. -/
inductive JSValue where
  | undef
  | null
  | num (n : JSNum)
  | str (s : String)
  | big (n : ℤ)
  | bool (b : Bool)
  | obj
  | arr
  | func
  | sym
deriving DecidableEq, Repr

/-- The `resolveRuntimeType` helper: `null` and arrays are special-cased,
the rest is the JS `typeof`. -/
def resolveRuntimeType : JSValue → String
  | .null => "null"
  | .arr => "array"
  | .undef => "undefined"
  | .num _ => "number"
  | .str _ => "string"
  | .big _ => "bigint"
  | .bool _ => "boolean"
  | .obj => "object"
  | .func => "function"
  | .sym => "symbol"

/-- Nullish test (`value == null` in the source, which matches both
`undefined` and `null`). -/
def isNullish : JSValue → Bool
  | .undef => true
  | .null => true
  | _ => false

/-- Severity of a missing required field. -/
inductive Severity where
  | warning
  | error
deriving DecidableEq, Repr

/-- The uniform robust result triple. -/
structure RobustFormattingResult (T : Type) where
  value : Option T
  warnings : List String
  errors : List String
deriving DecidableEq, Repr

/-- The `finalizeRobustFormattingResult` helper.  Its console reporting is
a fire-and-forget side channel that never affects the returned triple, so
the model returns the triple. -/
def finalizeRobustFormattingResult (T : Type) (context : String) (value : Option T)
    (warnings errors : List String) : RobustFormattingResult T :=
  { value := value, warnings := warnings, errors := errors }

/-- The `toErrorMessage` helper: thrown faults are modelled as their
message strings already. -/
def toErrorMessage (msg : String) : String := msg

/-- The `reportMissingRequiredFields` validator, generic in the field-name
type of the input record: absent or empty required list is a no-op, and
each required field that is undefined or null appends one message at the
chosen severity. -/
def reportMissingRequiredFields (φ : Type) (lookup : φ → JSValue) (fieldName : φ → String)
    (requiredFields : Option (List φ)) (warnings errors : List String)
    (severity : Severity) : Bool × List String × List String :=
  match requiredFields with
  | none => (false, warnings, errors)
  | some fs =>
    if fs.isEmpty then (false, warnings, errors)
    else
      fs.foldl
        (fun acc f =>
          let v := lookup f
          if !isNullish v then acc
          else
            let missingAs := if v = JSValue.null then "null" else "undefined"
            let msg := fieldName f ++ " is required but received " ++ missingAs ++ "."
            match severity with
            | .error => (true, acc.2.1, acc.2.2 ++ [msg])
            | .warning => (true, acc.2.1 ++ [msg], acc.2.2))
        (false, warnings, errors)

/-- The `normalizeBigIntValue` coercion: bigint passes, integral finite
number converts with a warning, optional-minus digit strings convert with
a warning, nullish is silently absent, everything else is an error. -/
def normalizeBigIntValue (value : JSValue) (warnings errors : List String) :
    Option ℤ × List String × List String :=
  match value with
  | .undef => (none, warnings, errors)
  | .null => (none, warnings, errors)
  | .big n => (some n, warnings, errors)
  | .num n =>
    if !jsIsFinite n || !jsIsInteger n then
      (none, warnings, errors ++
        ["bigIntValue has invalid number type \"" ++ jsNumToString n ++
          "\"; expected integer bigint-like value."])
    else
      match n with
      | .fin q => (some q.num,
          warnings ++ ["bigIntValue came as number and was automatically converted to bigint."],
          errors)
      | _ => (none, warnings, errors)
  | .str s =>
    let trimmedValue := jsTrim s
    if trimmedValue.isEmpty || !isSignedDigits trimmedValue then
      (none, warnings, errors ++
        ["bigIntValue string \"" ++ s ++ "\" is not a valid bigint-like integer string."])
    else
      (some (signedDigitsValue trimmedValue),
        warnings ++ ["bigIntValue came as string and was automatically converted to bigint."],
        errors)
  | other =>
    (none, warnings, errors ++
      ["bigIntValue has unsupported runtime type \"" ++ resolveRuntimeType other ++ "\"."])

/-- The `normalizeSymbol` coercion: string passes, nullish is silently
absent, everything else is an error. -/
def normalizeSymbol (symbol : JSValue) (errors : List String) :
    Option String × List String :=
  match symbol with
  | .undef => (none, errors)
  | .null => (none, errors)
  | .str s => (some s, errors)
  | other =>
    (none, errors ++
      ["symbol has unsupported runtime type \"" ++ resolveRuntimeType other ++
        "\"; expected string."])

/-- The `normalizeDecimals` coercion: non-negative safe-integer number
passes, in-range bigint and digit strings convert with a warning, nullish
is silently absent, the rest is an error. -/
def normalizeDecimals (decimals : JSValue) (warnings errors : List String) :
    Option ℕ × List String × List String :=
  match decimals with
  | .undef => (none, warnings, errors)
  | .null => (none, warnings, errors)
  | .num n =>
    if !jsIsFinite n || !jsIsSafeInteger n ||
        (match n with | .fin q => decide (q < 0) | _ => false) then
      (none, warnings, errors ++
        ["decimals number \"" ++ jsNumToString n ++
          "\" is invalid; expected non-negative safe integer."])
    else
      match n with
      | .fin q => (some q.num.toNat, warnings, errors)
      | _ => (none, warnings, errors)
  | .big n =>
    if n < 0 || (maxSafeInteger : ℤ) < n then
      (none, warnings, errors ++
        ["decimals bigint \"" ++ ⟨natToDigits n.natAbs⟩ ++
          "\" is outside non-negative safe integer range."])
    else
      (some n.toNat,
        warnings ++ ["decimals came as bigint and was automatically converted to number."],
        errors)
  | .str s =>
    let trimmedValue := jsTrim s
    if trimmedValue.isEmpty || !isDigitsOnly trimmedValue then
      (none, warnings, errors ++
        ["decimals string \"" ++ s ++ "\" is invalid; expected non-negative integer string."])
    else
      let parsedValue := (parseDigitsAux trimmedValue.data 0 0).1
      if !(parsedValue ≤ maxSafeInteger) then
        (none, warnings, errors ++
          ["decimals string \"" ++ s ++ "\" exceeds safe integer number range."])
      else
        (some parsedValue,
          warnings ++ ["decimals came as string and was automatically converted to number."],
          errors)
  | other =>
    (none, warnings, errors ++
      ["decimals has unsupported runtime type \"" ++ resolveRuntimeType other ++ "\"."])

/-- The `normalizeNumberValue` coercion: finite number passes, finite
numeric strings and safe-range bigints convert with a warning, nullish is
silently absent, the rest is an error. -/
def normalizeNumberValue (value : JSValue) (warnings errors : List String) :
    Option ℚ × List String × List String :=
  match value with
  | .undef => (none, warnings, errors)
  | .null => (none, warnings, errors)
  | .num n =>
    match n with
    | .fin q => (some q, warnings, errors)
    | _ =>
      (none, warnings, errors ++
        ["value number \"" ++ jsNumToString n ++ "\" is not finite."])
  | .str s =>
    let trimmedValue := jsTrim s
    if trimmedValue.isEmpty then
      (none, warnings, errors ++ ["value string is empty and cannot be converted to number."])
    else
      match jsParseNumber trimmedValue with
      | .fin q =>
        (some q,
          warnings ++ ["value came as string and was automatically converted to number."],
          errors)
      | _ =>
        (none, warnings, errors ++
          ["value string \"" ++ s ++ "\" is not a finite numeric representation."])
  | .big n =>
    if n < -(maxSafeInteger : ℤ) || (maxSafeInteger : ℤ) < n then
      (none, warnings, errors ++
        ["value bigint \"" ++ ⟨(if n < 0 then ['-'] else []) ++ natToDigits n.natAbs⟩ ++
          "\" exceeds safe number range and cannot be converted."])
    else
      (some (n : ℚ),
        warnings ++ ["value came as bigint and was automatically converted to number."],
        errors)
  | other =>
    (none, warnings, errors ++
      ["value has unsupported runtime type \"" ++ resolveRuntimeType other ++
        "\"; expected number-like input."])

/-! ## Robust wrapper inputs and field names -/

/-- Input record of the number wrapper; absent fields are `undefined`. -/
structure RobustNumberFormattingInput where
  value : JSValue := .undef
  symbol : JSValue := .undef
deriving DecidableEq, Repr

/-- Field names of the number wrapper input. -/
inductive NumField where
  | value
  | symbol
deriving DecidableEq, Repr

/-- Field lookup of the number wrapper input (`input?.[fieldName]`,
undefined when the input object is absent). -/
def numFieldLookup (input : Option RobustNumberFormattingInput) (f : NumField) : JSValue :=
  match input, f with
  | none, _ => JSValue.undef
  | some i, .value => i.value
  | some i, .symbol => i.symbol

/-- Printed name of a number wrapper field. -/
def numFieldName : NumField → String
  | .value => "value"
  | .symbol => "symbol"

/-- Input record of the two bigint wrappers. -/
structure RobustBigIntFormattingInput where
  bigIntValue : JSValue := .undef
  symbol : JSValue := .undef
  decimals : JSValue := .undef
deriving DecidableEq, Repr

/-- Field names of the bigint wrapper input. -/
inductive BigIntField where
  | bigIntValue
  | symbol
  | decimals
deriving DecidableEq, Repr

/-- Field lookup of the bigint wrapper input. -/
def bigIntFieldLookup (input : Option RobustBigIntFormattingInput) (f : BigIntField) :
    JSValue :=
  match input, f with
  | none, _ => JSValue.undef
  | some i, .bigIntValue => i.bigIntValue
  | some i, .symbol => i.symbol
  | some i, .decimals => i.decimals

/-- Printed name of a bigint wrapper field. -/
def bigIntFieldName : BigIntField → String
  | .bigIntValue => "bigIntValue"
  | .symbol => "symbol"
  | .decimals => "decimals"

/-- Input record of the percent wrapper. -/
structure RobustPercentFormattingInput where
  value : JSValue := .undef
deriving DecidableEq, Repr

/-- Field names of the percent wrapper input. -/
inductive PercentField where
  | value
deriving DecidableEq, Repr

/-- Field lookup of the percent wrapper input. -/
def percentFieldLookup (input : Option RobustPercentFormattingInput) (f : PercentField) :
    JSValue :=
  match input, f with
  | none, _ => JSValue.undef
  | some i, .value => i.value

/-- Printed name of a percent wrapper field. -/
def percentFieldName : PercentField → String
  | .value => "value"

/-- Input record of the token-value calculator. -/
structure RobustCalculateTokenValueInput where
  tokenAmount : JSValue := .undef
  tokenPrice : JSValue := .undef
  tokenDecimals : JSValue := .undef
  tokenPriceDecimals : JSValue := .undef
deriving DecidableEq, Repr

/-- Field names of the calculator input. -/
inductive CalcField where
  | tokenAmount
  | tokenPrice
  | tokenDecimals
  | tokenPriceDecimals
deriving DecidableEq, Repr

/-- Field lookup of the calculator input. -/
def calcFieldLookup (input : Option RobustCalculateTokenValueInput) (f : CalcField) :
    JSValue :=
  match input, f with
  | none, _ => JSValue.undef
  | some i, .tokenAmount => i.tokenAmount
  | some i, .tokenPrice => i.tokenPrice
  | some i, .tokenDecimals => i.tokenDecimals
  | some i, .tokenPriceDecimals => i.tokenPriceDecimals

/-- Printed name of a calculator field. -/
def calcFieldName : CalcField → String
  | .tokenAmount => "tokenAmount"
  | .tokenPrice => "tokenPrice"
  | .tokenDecimals => "tokenDecimals"
  | .tokenPriceDecimals => "tokenPriceDecimals"

/-! ## robustFormatNumberToViewNumber -/

/-- Options of the number wrapper. -/
structure RobustFormatNumberToViewNumberOptions where
  input : Option RobustNumberFormattingInput := none
  options : FormatPriceNewOptions := {}
  context : String := "robustFormatNumberToViewNumber"
  requiredFields : Option (List NumField) := none
  missingRequiredFieldSeverity : Severity := .warning
deriving Repr

/-- The number wrapper: validate required fields, normalize value and
symbol, stop on errors or an absent value, then format. -/
def robustFormatNumberToViewNumber (p : RobustFormatNumberToViewNumberOptions) :
    RobustFormattingResult ViewNumber :=
  match reportMissingRequiredFields NumField (numFieldLookup p.input) numFieldName
      p.requiredFields [] [] p.missingRequiredFieldSeverity with
  | (true, warnings, errors) =>
    finalizeRobustFormattingResult ViewNumber p.context none warnings errors
  | (false, warnings, errors) =>
    match normalizeNumberValue (numFieldLookup p.input .value) warnings errors with
    | (normalizedValue, warnings, errors) =>
      match normalizeSymbol (numFieldLookup p.input .symbol) errors with
      | (normalizedSymbol, errors) =>
        if 0 < errors.length then
          finalizeRobustFormattingResult ViewNumber p.context none warnings errors
        else
          match normalizedValue with
          | none => finalizeRobustFormattingResult ViewNumber p.context none warnings errors
          | some q =>
            finalizeRobustFormattingResult ViewNumber p.context
              (formatNumberToViewNumber (.num (.fin q)) normalizedSymbol p.options)
              warnings errors

/-! ## robustFormatBigIntToViewNumber -/

/-- Options of the scaled-integer wrapper. -/
structure RobustFormatBigIntToViewNumberOptions where
  input : Option RobustBigIntFormattingInput := none
  options : FormatPriceNewOptions := {}
  context : String := "robustFormatBigIntToViewNumber"
  requiredFields : Option (List BigIntField) := none
  missingRequiredFieldSeverity : Severity := .warning
deriving Repr

/-- The effective required-field computation shared by the two bigint
wrappers: the default `[decimals]` applies only when the caller supplied
no explicit list, and is dropped entirely when the raw amount field is
nullish. -/
def effectiveRequiredBigIntFields (explicit : Option (List BigIntField))
    (input : Option RobustBigIntFormattingInput) : List BigIntField :=
  if explicit = none ∧ isNullish (bigIntFieldLookup input .bigIntValue) then []
  else explicit.getD [BigIntField.decimals]

/-- The scaled-integer wrapper: like the number wrapper but with the
amount-conditional default required set, and the delegated formatter can
throw, which the wrapper captures as an error. -/
def robustFormatBigIntToViewNumber (p : RobustFormatBigIntToViewNumberOptions) :
    RobustFormattingResult ViewNumber :=
  match reportMissingRequiredFields BigIntField (bigIntFieldLookup p.input) bigIntFieldName
      (some (effectiveRequiredBigIntFields p.requiredFields p.input)) [] []
      p.missingRequiredFieldSeverity with
  | (true, warnings, errors) =>
    finalizeRobustFormattingResult ViewNumber p.context none warnings errors
  | (false, warnings, errors) =>
    match normalizeBigIntValue (bigIntFieldLookup p.input .bigIntValue) warnings errors with
    | (normalizedBigIntValue, warnings, errors) =>
      match normalizeSymbol (bigIntFieldLookup p.input .symbol) errors with
      | (normalizedSymbol, errors) =>
        match normalizeDecimals (bigIntFieldLookup p.input .decimals) warnings errors with
        | (normalizedDecimals, warnings, errors) =>
          if 0 < errors.length then
            finalizeRobustFormattingResult ViewNumber p.context none warnings errors
          else if normalizedBigIntValue.isNone || normalizedDecimals.isNone then
            finalizeRobustFormattingResult ViewNumber p.context none warnings errors
          else
            match formatBigIntToViewNumber (normalizedBigIntValue.map .big)
                normalizedDecimals normalizedSymbol p.options with
            | .ok value =>
              finalizeRobustFormattingResult ViewNumber p.context value warnings errors
            | .error e =>
              finalizeRobustFormattingResult ViewNumber p.context none warnings
                (errors ++ ["formatBigIntToViewNumber threw: " ++ toErrorMessage e ++ "."])

/-! ## robustFormatBigIntToViewTokenAmount -/

/-- Options of the token-amount wrapper. -/
structure RobustFormatBigIntToViewTokenAmountOptions where
  input : Option RobustBigIntFormattingInput := none
  config : FormatConfig := {}
  context : String := "robustFormatBigIntToViewTokenAmount"
  requiredFields : Option (List BigIntField) := none
  missingRequiredFieldSeverity : Severity := .warning
deriving Repr

/-- The token-amount wrapper: same validation and default-required-field
policy as the scaled-integer wrapper, but it forwards possibly-absent
normalized fields to the token formatter, which returns absent itself. -/
def robustFormatBigIntToViewTokenAmount (p : RobustFormatBigIntToViewTokenAmountOptions) :
    RobustFormattingResult ViewBigInt :=
  match reportMissingRequiredFields BigIntField (bigIntFieldLookup p.input) bigIntFieldName
      (some (effectiveRequiredBigIntFields p.requiredFields p.input)) [] []
      p.missingRequiredFieldSeverity with
  | (true, warnings, errors) =>
    finalizeRobustFormattingResult ViewBigInt p.context none warnings errors
  | (false, warnings, errors) =>
    match normalizeBigIntValue (bigIntFieldLookup p.input .bigIntValue) warnings errors with
    | (normalizedBigIntValue, warnings, errors) =>
      match normalizeSymbol (bigIntFieldLookup p.input .symbol) errors with
      | (normalizedSymbol, errors) =>
        match normalizeDecimals (bigIntFieldLookup p.input .decimals) warnings errors with
        | (normalizedDecimals, warnings, errors) =>
          if 0 < errors.length then
            finalizeRobustFormattingResult ViewBigInt p.context none warnings errors
          else
            match formatBigIntToViewTokenAmount
                (some { bigIntValue := normalizedBigIntValue.map .big,
                        symbol := normalizedSymbol,
                        decimals := normalizedDecimals }) p.config with
            | .ok value =>
              finalizeRobustFormattingResult ViewBigInt p.context value warnings errors
            | .error e =>
              finalizeRobustFormattingResult ViewBigInt p.context none warnings
                (errors ++ ["formatBigIntToViewTokenAmount threw: " ++ toErrorMessage e ++ "."])

/-! ## robustFormatPercentToViewPercent -/

/-- Options of the percent wrapper; the multiplier and divider are raw
runtime values with JS parameter default 1 applied on `undefined`. -/
structure RobustFormatPercentToViewPercentOptions where
  input : Option RobustPercentFormattingInput := none
  options : FormatPercentOptions := {}
  context : String := "robustFormatPercentToViewPercent"
  requiredFields : Option (List PercentField) := none
  missingRequiredFieldSeverity : Severity := .warning
  multiplier : JSValue := .undef
  divider : JSValue := .undef
deriving Repr

/-- The `normalizeScaleFactor` coercion of the percent wrapper: finite
number passes, finite numeric strings and safe-range bigints convert with
a warning, everything else (including null) is an error. -/
def normalizeScaleFactor (fieldName : String) (value : JSValue)
    (warnings errors : List String) : Option ℚ × List String × List String :=
  match value with
  | .num n =>
    match n with
    | .fin q => (some q, warnings, errors)
    | _ =>
      (none, warnings, errors ++
        [fieldName ++ " number \"" ++ jsNumToString n ++ "\" is not finite."])
  | .str s =>
    let trimmedValue := jsTrim s
    if trimmedValue.isEmpty then
      (none, warnings, errors ++
        [fieldName ++ " string is empty and cannot be converted to number."])
    else
      match jsParseNumber trimmedValue with
      | .fin q =>
        (some q,
          warnings ++ [fieldName ++ " came as string and was automatically converted to number."],
          errors)
      | _ =>
        (none, warnings, errors ++
          [fieldName ++ " string \"" ++ s ++ "\" is not a finite numeric representation."])
  | .big n =>
    if n < -(maxSafeInteger : ℤ) || (maxSafeInteger : ℤ) < n then
      (none, warnings, errors ++
        [fieldName ++ " bigint \"" ++ ⟨(if n < 0 then ['-'] else []) ++ natToDigits n.natAbs⟩ ++
          "\" exceeds safe number range and cannot be converted."])
    else
      (some (n : ℚ),
        warnings ++ [fieldName ++ " came as bigint and was automatically converted to number."],
        errors)
  | other =>
    (none, warnings, errors ++
      [fieldName ++ " has unsupported runtime type \"" ++ resolveRuntimeType other ++
        "\"; expected number-like input."])

/-- The percent wrapper: validate, normalize value and both scale factors,
reject a zero divider, stop on errors or absent inputs, then scale and
format.  The percent formatter is total, so the wrapper try block cannot
throw in the model. -/
def robustFormatPercentToViewPercent (p : RobustFormatPercentToViewPercentOptions) :
    RobustFormattingResult ViewPercent :=
  let multiplier := if p.multiplier = .undef then JSValue.num (.fin 1) else p.multiplier
  let divider := if p.divider = .undef then JSValue.num (.fin 1) else p.divider
  match reportMissingRequiredFields PercentField (percentFieldLookup p.input) percentFieldName
      p.requiredFields [] [] p.missingRequiredFieldSeverity with
  | (true, warnings, errors) =>
    finalizeRobustFormattingResult ViewPercent p.context none warnings errors
  | (false, warnings, errors) =>
    match normalizeNumberValue (percentFieldLookup p.input .value) warnings errors with
    | (normalizedValue, warnings, errors) =>
      match normalizeScaleFactor "multiplier" multiplier warnings errors with
      | (normalizedMultiplier, warnings, errors) =>
        match normalizeScaleFactor "divider" divider warnings errors with
        | (normalizedDivider, warnings, errors) =>
          let errors :=
            if normalizedDivider = some 0 then errors ++ ["divider cannot be zero."]
            else errors
          if 0 < errors.length then
            finalizeRobustFormattingResult ViewPercent p.context none warnings errors
          else
            match normalizedValue, normalizedMultiplier, normalizedDivider with
            | some v, some m, some d =>
              let scaledValue := v * m / d
              finalizeRobustFormattingResult ViewPercent p.context
                (some (formatPercentToViewPercent (.num (.fin scaledValue)) p.options))
                warnings errors
            | _, _, _ =>
              finalizeRobustFormattingResult ViewPercent p.context none warnings errors

/-! ## robustCalculateTokenValue -/

/-- The calculator result value. -/
structure RobustCalculatedTokenValue where
  tokenValueRaw : ℤ
  tokenValueDecimals : ℕ
deriving DecidableEq, Repr

/-- Options of the token-value calculator. -/
structure RobustCalculateTokenValueOptions where
  input : Option RobustCalculateTokenValueInput := none
  context : String := "robustCalculateTokenValue"
  requiredFields : Option (List CalcField) := none
  missingRequiredFieldSeverity : Severity := .warning
deriving Repr

/-- The `normalizeTokenPriceToScaledBigInt` coercion: bigint passes as
already scaled, otherwise the price decimal count must be known and the
decimal form is parsed by the viem `parseUnits` model; negative prices
are errors. -/
def normalizeTokenPriceToScaledBigInt (tokenPrice : JSValue)
    (tokenPriceDecimals : Option ℕ) (warnings errors : List String) :
    Option ℤ × List String × List String :=
  match tokenPrice with
  | .undef => (none, warnings, errors)
  | .null => (none, warnings, errors)
  | .big n => (some n, warnings, errors)
  | other =>
    match tokenPriceDecimals with
    | none =>
      (none, warnings,
        errors ++ ["tokenPriceDecimals is required to parse non-bigint tokenPrice values."])
    | some pd =>
      match other with
      | .num n =>
        match n with
        | .fin q =>
          if q < 0 then
            (none, warnings,
              errors ++ ["tokenPrice number \"" ++ jsNumToString n ++ "\" cannot be negative."])
          else
            match parseUnits (jsNumToString n) pd with
            | .ok v => (some v, warnings, errors)
            | .error e =>
              (none, warnings,
                errors ++ ["tokenPrice number could not be parsed: " ++ toErrorMessage e ++ "."])
        | _ =>
          (none, warnings,
            errors ++ ["tokenPrice number \"" ++ jsNumToString n ++ "\" is not finite."])
      | .str s =>
        let trimmedValue := jsTrim s
        if trimmedValue.isEmpty then
          (none, warnings, errors ++ ["tokenPrice string is empty and cannot be parsed."])
        else
          let warnings := warnings ++
            ["tokenPrice came as string and was parsed into scaled bigint price value."]
          match parseUnits trimmedValue pd with
          | .ok v =>
            if v < 0 then
              (none, warnings,
                errors ++ ["tokenPrice string \"" ++ s ++ "\" cannot be negative."])
            else (some v, warnings, errors)
          | .error e =>
            (none, warnings,
              errors ++ ["tokenPrice string \"" ++ s ++ "\" is invalid: " ++
                toErrorMessage e ++ "."])
      | other =>
        (none, warnings,
          errors ++ ["tokenPrice has unsupported runtime type \"" ++
            resolveRuntimeType other ++ "\"."])

/-- The BigInt division of the calculation step: the host bigint `/`
truncates toward zero. -/
def jsBigIntDiv (a b : ℤ) : ℤ :=
  Int.tdiv a b

/-- The token-value calculator wrapper: validate the caller-given
required list, silently stop when any of the four raw fields is nullish,
normalize everything, reject negatives, then compute
`(amount * scaledPrice) / 10 ^ amountDecimals` in integers. -/
def robustCalculateTokenValue (p : RobustCalculateTokenValueOptions) :
    RobustFormattingResult RobustCalculatedTokenValue :=
  match reportMissingRequiredFields CalcField (calcFieldLookup p.input) calcFieldName
      p.requiredFields [] [] p.missingRequiredFieldSeverity with
  | (true, warnings, errors) =>
    finalizeRobustFormattingResult RobustCalculatedTokenValue p.context none warnings errors
  | (false, warnings, errors) =>
    if isNullish (calcFieldLookup p.input .tokenAmount) ||
        isNullish (calcFieldLookup p.input .tokenPrice) ||
        isNullish (calcFieldLookup p.input .tokenDecimals) ||
        isNullish (calcFieldLookup p.input .tokenPriceDecimals) then
      finalizeRobustFormattingResult RobustCalculatedTokenValue p.context none warnings errors
    else
      match normalizeBigIntValue (calcFieldLookup p.input .tokenAmount) warnings errors with
      | (normalizedTokenAmount, warnings, errors) =>
        match normalizeDecimals (calcFieldLookup p.input .tokenDecimals) warnings errors with
        | (normalizedTokenDecimals, warnings, errors) =>
          match normalizeDecimals (calcFieldLookup p.input .tokenPriceDecimals)
              warnings errors with
          | (normalizedTokenPriceDecimals, warnings, errors) =>
            match normalizeTokenPriceToScaledBigInt (calcFieldLookup p.input .tokenPrice)
                normalizedTokenPriceDecimals warnings errors with
            | (normalizedTokenPrice, warnings, errors) =>
              let errors :=
                if (normalizedTokenAmount.getD 0) < 0 ∧ normalizedTokenAmount.isSome then
                  errors ++ ["tokenAmount cannot be negative."]
                else errors
              let errors :=
                if (normalizedTokenPrice.getD 0) < 0 ∧ normalizedTokenPrice.isSome then
                  errors ++ ["tokenPrice cannot be negative."]
                else errors
              if 0 < errors.length then
                finalizeRobustFormattingResult RobustCalculatedTokenValue p.context none
                  warnings errors
              else
                match normalizedTokenAmount, normalizedTokenPrice, normalizedTokenDecimals,
                    normalizedTokenPriceDecimals with
                | some a, some price, some d, some pd =>
                  let divider : ℤ := 10 ^ d
                  let tokenValueRaw := jsBigIntDiv (a * price) divider
                  finalizeRobustFormattingResult RobustCalculatedTokenValue p.context
                    (some { tokenValueRaw := tokenValueRaw, tokenValueDecimals := pd })
                    warnings errors
                | _, _, _, _ =>
                  finalizeRobustFormattingResult RobustCalculatedTokenValue p.context none
                    warnings errors

/-! ## Properties of the rendering primitives -/

theorem digitChar_isDigit (n : ℕ) : isDigitChar (digitChar n) = true := by
  unfold digitChar
  repeat' split
  all_goals decide

theorem mem_natToDigitsAux {fuel n : ℕ} {acc : List Char} {c : Char}
    (h : c ∈ natToDigitsAux fuel n acc) : c ∈ acc ∨ isDigitChar c = true := by
  induction fuel generalizing n acc with
  | zero => exact Or.inl h
  | succ fuel ih =>
    unfold natToDigitsAux at h
    split at h
    · rcases List.mem_cons.mp h with h | h
      · exact Or.inr (by rw [h]; exact digitChar_isDigit n)
      · exact Or.inl h
    · rcases ih h with h | h
      · rcases List.mem_cons.mp h with h | h
        · exact Or.inr (by rw [h]; exact digitChar_isDigit (n % 10))
        · exact Or.inl h
      · exact Or.inr h

theorem mem_natToDigits {n : ℕ} {c : Char} (h : c ∈ natToDigits n) :
    isDigitChar c = true := by
  rcases mem_natToDigitsAux h with h | h
  · cases h
  · exact h

theorem mem_commasRev : ∀ (l : List Char) (c : Char), c ∈ commasRev l → c ∈ l ∨ c = ','
  | a :: b :: cc :: d :: rest, c, h => by
    simp only [commasRev, List.mem_cons] at h
    rcases h with h | h | h | h | h
    · exact Or.inl (by simp [h])
    · exact Or.inl (by simp [h])
    · exact Or.inl (by simp [h])
    · exact Or.inr h
    · rcases mem_commasRev (d :: rest) c h with h | h
      · exact Or.inl (by simp only [List.mem_cons] at h ⊢; tauto)
      · exact Or.inr h
  | [], _, h => by cases h
  | [a], c, h => by
    simp only [commasRev] at h; exact Or.inl h
  | [a, b], c, h => by
    simp only [commasRev] at h; exact Or.inl h
  | [a, b, cc], c, h => by
    simp only [commasRev] at h; exact Or.inl h

theorem mem_groupDigits {ds : List Char} {c : Char} (h : c ∈ groupDigits ds) :
    c ∈ ds ∨ c = ',' := by
  unfold groupDigits at h
  rw [List.mem_reverse] at h
  rcases mem_commasRev _ _ h with h | h
  · exact Or.inl (List.mem_reverse.mp h)
  · exact Or.inr h

theorem mem_trimRevZeros : ∀ (l : List Char) (m : ℕ) (c : Char),
    c ∈ trimRevZeros l m → c ∈ l
  | [], _, _, h => by rw [trimRevZeros] at h; cases h
  | c₀ :: rest, m, c, h => by
    rw [trimRevZeros] at h
    split at h
    · exact List.mem_cons_of_mem _ (mem_trimRevZeros rest m c h)
    · exact h

/-- Concrete checks of the Intl rendering model against the host behaviour the repository tests and doc comments record. -/
theorem intl_model_checks :
    intlStandardFormat (1234567 / 1000 : ℚ) 2 2 true = "1,234.57" ∧
    intlStandardFormat (10000 : ℚ) 2 2 true = "10,000.00" ∧
    intlStandardFormat (1234567 / 1000000 : ℚ) 0 6 false = "1.234567" ∧
    intlStandardFormat (5 : ℚ) 0 6 false = "5" ∧
    intlCompactFormat (1234567 / 1000 : ℚ) 2 2 true = "1.23K" ∧
    intlCompactFormat (999999 : ℚ) 2 2 true = "1.00M" ∧
    intlCompactFormat (0 : ℚ) 2 2 true = "0.00" ∧
    intlCompactFormat (954 / 100 : ℚ) 2 2 true = "9.54" := by
  refine ⟨by decide, by decide, by decide, by decide, by decide, by decide, by decide, by decide⟩

/-- Concrete checks of the Number, BigInt and String(number) models. -/
theorem js_primitive_model_checks :
    jsParseNumber "1.234567" = .fin (1234567 / 1000000) ∧
    jsParseNumber "  -12.5e1  " = .fin (-125) ∧
    jsParseNumber "" = .fin 0 ∧
    jsParseNumber "abc" = .nan ∧
    jsParseNumber "-Infinity" = .ninf ∧
    jsBigIntOfString "abc" = none ∧
    jsBigIntOfString " -25 " = some (-25) ∧
    jsNumToString (.fin (51 / 50)) = "1.02" ∧
    jsNumToString (.fin (-1234)) = "-1234" := by
  refine ⟨by decide, by decide, by decide, by decide, by decide, by decide, by decide, by decide, by decide⟩

/-- Concrete checks of the formatUnits and parseUnits models. -/
theorem viem_model_checks :
    formatUnits 1234567 6 = "1.234567" ∧
    formatUnits 5 9 = "0.000000005" ∧
    formatUnits (-5) 0 = "-5" ∧
    formatUnits 100 2 = "1" ∧
    parseUnits "1.02" 8 = .ok 102000000 ∧
    parseUnits "1.005" 2 = .ok 101 ∧
    parseUnits "x" 2 = .error ("Number \"x\" is not a valid decimal number.") := by
  refine ⟨by decide, by decide, by decide, by decide, by decide, by decide, by decide⟩


/-! ## Character classes of the rendered output

The claims about sign and symbol separation need that the rendering model
emits only digits, separators and compact suffix letters for non-negative
input. -/

theorem mem_splitScaledDigits_fst {m f : ℕ} {c : Char}
    (h : c ∈ (splitScaledDigits m f).1) : isDigitChar c = true := by
  unfold splitScaledDigits at h
  simp only at h
  have hp := List.take_subset _ _ h
  split at hp
  · rcases List.mem_append.mp hp with hp | hp
    · rw [List.eq_of_mem_replicate hp]; decide
    · exact mem_natToDigits hp
  · exact mem_natToDigits hp

theorem mem_splitScaledDigits_snd {m f : ℕ} {c : Char}
    (h : c ∈ (splitScaledDigits m f).2) : isDigitChar c = true := by
  unfold splitScaledDigits at h
  simp only at h
  have hp := List.drop_subset _ _ h
  split at hp
  · rcases List.mem_append.mp hp with hp | hp
    · rw [List.eq_of_mem_replicate hp]; decide
    · exact mem_natToDigits hp
  · exact mem_natToDigits hp

theorem mem_compactSuffix {k : ℕ} {c : Char} (h : c ∈ compactSuffix k) :
    c = 'K' ∨ c = 'M' ∨ c = 'B' ∨ c = 'T' := by
  unfold compactSuffix at h
  split_ifs at h <;> simp_all

theorem mem_intlStandardChars {q : ℚ} {minF maxF : ℕ} {g : Bool} {c : Char}
    (hq : 0 ≤ q) (h : c ∈ intlStandardChars q minF maxF g) :
    isDigitChar c = true ∨ c = ',' ∨ c = '.' := by
  unfold intlStandardChars at h
  simp only at h
  rw [if_neg (not_lt.mpr hq)] at h
  rcases List.mem_append.mp h with h | h
  · rcases List.mem_append.mp h with h | h
    · cases h
    · split at h
      · rcases mem_groupDigits h with h | h
        · exact Or.inl (mem_splitScaledDigits_fst h)
        · exact Or.inr (Or.inl h)
      · exact Or.inl (mem_splitScaledDigits_fst h)
  · split at h
    · cases h
    · rcases List.mem_cons.mp h with h | h
      · exact Or.inr (Or.inr h)
      · rw [List.mem_reverse] at h
        exact Or.inl (mem_splitScaledDigits_snd (List.mem_reverse.mp (mem_trimRevZeros _ _ _ h)))

theorem mem_intlCompactChars {q : ℚ} {minF maxF : ℕ} {g : Bool} {c : Char}
    (hq : 0 ≤ q) (h : c ∈ intlCompactChars q minF maxF g) :
    isDigitChar c = true ∨ c = ',' ∨ c = '.' ∨ c = 'K' ∨ c = 'M' ∨ c = 'B' ∨ c = 'T' := by
  unfold intlCompactChars at h
  simp only at h
  rw [if_neg (not_lt.mpr hq)] at h
  rcases List.mem_append.mp h with h | h
  · rcases List.mem_append.mp h with h | h
    · rcases List.mem_append.mp h with h | h
      · cases h
      · split at h
        · rcases mem_groupDigits h with h | h
          · exact Or.inl (mem_splitScaledDigits_fst h)
          · exact Or.inr (Or.inl h)
        · exact Or.inl (mem_splitScaledDigits_fst h)
    · split at h
      · cases h
      · rcases List.mem_cons.mp h with h | h
        · exact Or.inr (Or.inr (Or.inl h))
        · rw [List.mem_reverse] at h
          exact Or.inl (mem_splitScaledDigits_snd (List.mem_reverse.mp (mem_trimRevZeros _ _ _ h)))
  · rcases mem_compactSuffix h with h | h | h | h
    · exact Or.inr (Or.inr (Or.inr (Or.inl h)))
    · exact Or.inr (Or.inr (Or.inr (Or.inr (Or.inl h))))
    · exact Or.inr (Or.inr (Or.inr (Or.inr (Or.inr (Or.inl h)))))
    · exact Or.inr (Or.inr (Or.inr (Or.inr (Or.inr (Or.inr h)))))

theorem noMinus_intlStandardFormat {q : ℚ} (hq : 0 ≤ q) (minF maxF : ℕ) (g : Bool) :
    '-' ∉ (intlStandardFormat q minF maxF g).data := by
  intro h
  rcases mem_intlStandardChars hq h with h | h | h <;> exact absurd h (by decide)

theorem noMinus_intlCompactFormat {q : ℚ} (hq : 0 ≤ q) (minF maxF : ℕ) (g : Bool) :
    '-' ∉ (intlCompactFormat q minF maxF g).data := by
  intro h
  rcases mem_intlCompactChars hq h with h | h | h | h | h | h | h <;> exact absurd h (by decide)

/-! ## Claims -/

/-- Claim C10: every normalizer coercion, given undefined or null,
returns absent and leaves the caller-supplied warning and error
accumulators untouched; this silent absence is distinct from the error
appended for an unsupported runtime type such as a plain object. -/
theorem normalizers_silent_on_nullish :
    ∀ (w e : List String),
      normalizeBigIntValue .undef w e = (none, w, e) ∧
      normalizeBigIntValue .null w e = (none, w, e) ∧
      normalizeDecimals .undef w e = (none, w, e) ∧
      normalizeDecimals .null w e = (none, w, e) ∧
      normalizeNumberValue .undef w e = (none, w, e) ∧
      normalizeNumberValue .null w e = (none, w, e) ∧
      normalizeSymbol .undef e = (none, e) ∧
      normalizeSymbol .null e = (none, e) ∧
      normalizeBigIntValue .obj w e =
        (none, w, e ++ ["bigIntValue has unsupported runtime type \"object\"."]) := by
  intro w e
  exact ⟨rfl, rfl, rfl, rfl, rfl, rfl, rfl, rfl, rfl⟩
/-- Claim C3: a successful token-value calculation with a non-negative
amount, a non-negative already-scaled price and in-range decimal counts
returns exactly `(amount * scaledPrice) / 10 ^ amountDecimals` in integer
arithmetic with truncation toward zero, with the price decimal count as
the result decimal count; and the documented concrete instance with the
decimal price 1.02 parsed at eight decimals gives 255,000,000 at 8. -/
theorem robustCalculateTokenValue_spec :
    (∀ (a p : ℤ) (d pd : ℕ) (ctx : String) (sev : Severity),
      0 ≤ a → 0 ≤ p → d ≤ maxSafeInteger → pd ≤ maxSafeInteger →
      robustCalculateTokenValue
        { input := some { tokenAmount := .big a, tokenPrice := .big p,
                          tokenDecimals := .num (.fin d), tokenPriceDecimals := .num (.fin pd) },
          context := ctx, requiredFields := none,
          missingRequiredFieldSeverity := sev } =
        { value := some { tokenValueRaw := Int.tdiv (a * p) (10 ^ d),
                          tokenValueDecimals := pd },
          warnings := [], errors := [] }) ∧
    robustCalculateTokenValue
      { input := some { tokenAmount := .big 2500000000000000000,
                        tokenPrice := .num (.fin (51 / 50)),
                        tokenDecimals := .num (.fin 18),
                        tokenPriceDecimals := .num (.fin 8) } } =
      { value := some { tokenValueRaw := 255000000, tokenValueDecimals := 8 },
        warnings := [], errors := [] } := by
  constructor
  · intro a p d pd ctx sev ha hp hd hpd
    have hdsafe : jsIsSafeInteger (.fin (d : ℚ)) = true := by
      simp [jsIsSafeInteger, hd]
    have hpdsafe : jsIsSafeInteger (.fin (pd : ℚ)) = true := by
      simp [jsIsSafeInteger, hpd]
    have hdneg : ¬ ((d : ℚ) < 0) := not_lt.mpr (by exact_mod_cast Nat.zero_le d)
    have hpdneg : ¬ ((pd : ℚ) < 0) := not_lt.mpr (by exact_mod_cast Nat.zero_le pd)
    have hna : ¬ (a < 0) := not_lt.mpr ha
    have hnp : ¬ (p < 0) := not_lt.mpr hp
    simp [robustCalculateTokenValue, reportMissingRequiredFields, calcFieldLookup,
      isNullish, normalizeBigIntValue, normalizeDecimals, jsIsFinite,
      hdsafe, hpdsafe, hdneg, hpdneg, normalizeTokenPriceToScaledBigInt,
      hna, hnp, finalizeRobustFormattingResult, jsBigIntDiv]
  · decide

/-- Witness for claim C3 at a concrete instance. -/
theorem robustCalculateTokenValue_spec_witness :
    (0 : ℤ) ≤ 6 ∧ (0 : ℤ) ≤ 4 ∧ 1 ≤ maxSafeInteger ∧ 2 ≤ maxSafeInteger ∧
    robustCalculateTokenValue
      { input := some { tokenAmount := .big 6, tokenPrice := .big 4,
                        tokenDecimals := .num (.fin 1),
                        tokenPriceDecimals := .num (.fin 2) } } =
      { value := some { tokenValueRaw := Int.tdiv (6 * 4) (10 ^ 1),
                        tokenValueDecimals := 2 },
        warnings := [], errors := [] } :=
  ⟨by decide, by decide, by decide, by decide,
    robustCalculateTokenValue_spec.1 6 4 1 2 "robustCalculateTokenValue" .warning
      (by decide) (by decide) (by decide) (by decide)⟩
/-- Claim C7 counterexample: a call of the scaled-integer formatter with
the decimals argument absent returns absent without signaling any fault,
so the claimed MissingDecimals failure does not happen. -/
theorem formatBigIntToViewNumber_missing_decimals_returns_absent :
    formatBigIntToViewNumber (some (.str "5")) none (some "$") {} = .ok none := rfl

/-- Claim C7 amended: the scaled-integer formatter returns absent (no
fault) whenever the decimals argument or the input is absent, and fails
with the InvalidAmount condition exactly when a present input string
cannot be parsed as a bigint while decimals is present. -/
theorem formatBigIntToViewNumber_fault_spec :
    (∀ inp sym opts, formatBigIntToViewNumber inp none sym opts = .ok none) ∧
    (∀ (d : ℕ) sym opts, formatBigIntToViewNumber none (some d) sym opts = .ok none) ∧
    (∀ (s : String) (d : ℕ) sym opts, jsBigIntOfString s = none →
      formatBigIntToViewNumber (some (.str s)) (some d) sym opts =
        .error "formatBigIntToViewNumber: `input` must be a bigint or bigint-like string") := by
  refine ⟨fun inp sym opts => by cases inp <;> rfl, fun d sym opts => rfl,
    fun s d sym opts h => ?_⟩
  simp only [formatBigIntToViewNumber, h]
  rfl

/-- Witness for the amended claim C7 at the unparseable input of the
repository test suite. -/
theorem formatBigIntToViewNumber_fault_spec_witness :
    jsBigIntOfString "abc" = none ∧
    formatBigIntToViewNumber (some (.str "abc")) (some 8) (some "$") {} =
      .error "formatBigIntToViewNumber: `input` must be a bigint or bigint-like string" :=
  ⟨by decide, formatBigIntToViewNumber_fault_spec.2.2 "abc" 8 (some "$") {} (by decide)⟩
/-- Claim C8 counterexample: the percent formatter does not yield an
absent result on absent input: a null input takes the zero path and
renders "0.00", an undefined input takes the non-finite fallback and
echoes the text "undefined". -/
theorem formatPercentToViewPercent_not_absent_on_absent :
    (formatPercentToViewPercent .null {}).viewValue = "0.00" ∧
    (formatPercentToViewPercent .undef {}).viewValue = "undefined" := by
  exact ⟨rfl, rfl⟩

/-- Claim C8 amended: the numeric formatter yields an absent result with
no error on absent (undefined or null) input; the percent formatter has
no such check and always yields a result: null coerces to the number
zero and renders the zero view, undefined coerces to NaN and echoes the
text "undefined" through the non-finite fallback. -/
theorem absent_input_spec :
    (∀ sym opts, formatNumberToViewNumber .undef sym opts = none ∧
      formatNumberToViewNumber .null sym opts = none) ∧
    (∀ opts, (formatPercentToViewPercent .null opts).viewValue = "0.00" ∧
      (formatPercentToViewPercent .null opts).belowMin = false ∧
      (formatPercentToViewPercent .undef opts).viewValue = "undefined" ∧
      (formatPercentToViewPercent .undef opts).belowMin = false) := by
  exact ⟨fun sym opts => ⟨rfl, rfl⟩, fun opts => ⟨rfl, rfl, rfl, rfl⟩⟩
/-- Claim C9 counterexample: at three standard decimals, zero still
renders as the hard-coded "0.00", which is not standard notation at
standardDecimals (that would be "0.000"). -/
theorem zero_viewValue_not_standardDecimals :
    (formatNumberToViewNumber (.num (.fin 0)) (some "$")
        { standardDecimals := some 3 }).map (fun r => r.viewValue) =
      some (some "0.00") ∧
    intlStandardFormat 0 3 3 true = "0.000" ∧
    ("0.00" : String) ≠ "0.000" := by
  exact ⟨rfl, by decide, by decide⟩

/-- Claim C9 amended: for zero input and every configuration, both the
numeric and the percent formatter render viewValue as the literal
"0.00" (regardless of standardDecimals), render compact in compact
notation at compactDecimals, and never set belowMin. -/
theorem zero_input_spec :
    (∀ sym opts, (formatNumberToViewNumber (.num (.fin 0)) sym opts).map
        (fun r => (r.viewValue, r.belowMin, r.compact)) =
      some (some "0.00", some false,
        some (intlCompactFormat 0 (opts.compactDecimals.getD 2)
          (opts.compactDecimals.getD 2) true))) ∧
    (∀ opts,
      (formatPercentToViewPercent (.num (.fin 0)) opts).viewValue = "0.00" ∧
      (formatPercentToViewPercent (.num (.fin 0)) opts).belowMin = false ∧
      (formatPercentToViewPercent (.num (.fin 0)) opts).sign = "" ∧
      (formatPercentToViewPercent (.num (.fin 0)) opts).compact =
        intlCompactFormat 0 (opts.compactDecimals.getD 2)
          (opts.compactDecimals.getD 2) true) := by
  exact ⟨fun sym opts => rfl, fun opts => ⟨rfl, rfl, rfl, rfl⟩⟩
/-- Claim C1 counterexample: the input 0.004 is non-zero and rounds to
zero at the default two standard decimals, so under the claimed
characterization (0 < |rounded| required) belowMin would be false, but
the numeric formatter flags it. -/
theorem belowMin_flags_round_to_zero :
    (formatNumberToViewNumber (.num (.fin (1 / 250))) (some "$") {}).map
        (fun r => r.belowMin) = some (some true) ∧
    jsRoundTo (1 / 250) 2 = 0 := by
  exact ⟨by decide, by decide⟩

/-- Claim C1 amended: for non-zero finite input the numeric formatter
sets belowMin exactly when the absolute rounded value is below the
effective floor (default 0.01) with no positivity guard, so a value that
rounds exactly to the floor is not flagged, while a non-zero value that
rounds to zero is; the token-amount magnitude path tests the unrounded
value and does carry the guard: belowMin holds exactly when a floor is
configured and the absolute value is strictly between zero and it, and
is always false when no floor is configured. -/
theorem belowMin_spec :
    (∀ (q : ℚ) sym opts, q ≠ 0 →
      (formatNumberToViewNumber (.num (.fin q)) sym opts).map (fun r => r.belowMin) =
        some (some (decide (|jsRoundTo q (opts.standardDecimals.getD 2)| <
          opts.minDisplay.getD (1 / 100))))) ∧
    (∀ (q : ℚ) sym opts, q ≠ 0 →
      |jsRoundTo q (opts.standardDecimals.getD 2)| = opts.minDisplay.getD (1 / 100) →
      (formatNumberToViewNumber (.num (.fin q)) sym opts).map (fun r => r.belowMin) =
        some (some false)) ∧
    (∀ (n : ℚ) (locale : String) (mo : MagnitudeOpts),
      (formatViewValueByMagnitude n locale mo).belowMin =
        match mo.minDisplay with
        | some m => decide (0 < |n| ∧ |n| < m)
        | none => false) := by
  have h1 : ∀ (q : ℚ) sym opts, q ≠ 0 →
      (formatNumberToViewNumber (.num (.fin q)) sym opts).map (fun r => r.belowMin) =
        some (some (decide (|jsRoundTo q (opts.standardDecimals.getD 2)| <
          opts.minDisplay.getD (1 / 100)))) := by
    intro q sym opts hq
    simp [formatNumberToViewNumber, hq]
  refine ⟨h1, fun q sym opts hq he => ?_, fun n locale mo => ?_⟩
  · rw [h1 q sym opts hq, he]
    simp
  · rcases hm : mo.minDisplay with _ | m
    · simp [formatViewValueByMagnitude, hm]
      split_ifs <;> rfl
    · simp only [formatViewValueByMagnitude, hm]
      split_ifs with h₁ h₂ h₃ h₄ <;> simp_all

/-- Witness for the amended claim C1: 0.006 rounds to exactly the
default floor 0.01 and is not flagged. -/
theorem belowMin_spec_witness :
    ((3 / 500 : ℚ) ≠ 0 ∧
      (formatNumberToViewNumber (.num (.fin (3 / 500))) (some "$") {}).map
          (fun r => r.belowMin) =
        some (some (decide (|jsRoundTo (3 / 500) 2| < (1 / 100 : ℚ))))) ∧
    (|jsRoundTo (3 / 500) 2| = (1 / 100 : ℚ) ∧
      (formatNumberToViewNumber (.num (.fin (3 / 500))) (some "$") {}).map
          (fun r => r.belowMin) =
        some (some false)) :=
  ⟨⟨by norm_num, belowMin_spec.1 (3 / 500) (some "$") {} (by norm_num)⟩,
   ⟨by decide, belowMin_spec.2.1 (3 / 500) (some "$") {} (by norm_num) (by decide)⟩⟩

/-- Claim C5 counterexample: the ratio -0.00004 scales to the percent
value -0.004, which rounds to zero (not strictly negative), yet the
percent formatter reports the sign "-" because the below-floor branch
resurrects the pre-rounding sign. -/
theorem percent_sign_without_negative_rounded :
    (formatPercentToViewPercent (.num (.fin (-1 / 25000))) {}).sign = "-" ∧
    jsRoundTo ((-1 / 25000) * 100) 2 = 0 := by
  exact ⟨by decide, by decide⟩

set_option maxHeartbeats 2000000 in
/-- Claim C5 amended: for finite non-zero input the numeric formatter
sets sign to "-" exactly when the rounded value is strictly negative;
the percent formatter additionally forces "-" when the value is below
the floor and the pre-rounding percent is negative even though the
rounded value is zero (not negative).  Under non-negative floor and
ceiling configurations the sign is never embedded: viewValue and
compact contain no minus character. -/
theorem sign_spec :
    (∀ (q : ℚ) sym opts, q ≠ 0 →
      (formatNumberToViewNumber (.num (.fin q)) sym opts).map (fun r => r.sign) =
        some (some (if jsRoundTo q (opts.standardDecimals.getD 2) < 0 then "-" else ""))) ∧
    (∀ (q : ℚ) opts, q * 100 ≠ 0 →
      (formatPercentToViewPercent (.num (.fin q)) opts).sign =
        (if jsRoundTo (q * 100) (opts.standardDecimals.getD 2) < 0 ∨
            (|jsRoundTo (q * 100) (opts.standardDecimals.getD 2)| <
                opts.minDisplay.getD (1 / 100) ∧ q * 100 < 0)
         then "-" else "")) ∧
    (∀ (q : ℚ) sym opts (r : ViewNumber), q ≠ 0 →
      0 ≤ opts.minDisplay.getD (1 / 100) →
      (∀ m, opts.maxDisplay = some m → 0 ≤ m) →
      formatNumberToViewNumber (.num (.fin q)) sym opts = some r →
      '-' ∉ (r.viewValue.getD "").data ∧ '-' ∉ (r.compact.getD "").data) ∧
    (∀ (q : ℚ) opts, q * 100 ≠ 0 → 0 ≤ opts.minDisplay.getD (1 / 100) →
      (∀ m, opts.maxDisplay = some m → 0 ≤ m) →
      '-' ∉ (formatPercentToViewPercent (.num (.fin q)) opts).viewValue.data ∧
      '-' ∉ (formatPercentToViewPercent (.num (.fin q)) opts).compact.data) := by
  refine ⟨fun q sym opts hq => ?_, fun q opts hq => ?_,
    fun q sym opts r hq hmin hmax hr => ?_, fun q opts hq hmin hmax => ?_⟩
  · simp [formatNumberToViewNumber, hq]
  · unfold formatPercentToViewPercent
    dsimp only
    rw [if_neg hq]
    split_ifs <;> simp_all
    all_goals casesm* _ ∨ _, _ ∧ _
    all_goals linarith
  · unfold formatNumberToViewNumber at hr
    dsimp only at hr
    rw [if_neg hq] at hr
    obtain rfl := Option.some.inj hr
    constructor
    · dsimp only [Option.getD_some]
      split_ifs with h1 h2 h3
      · exact noMinus_intlStandardFormat hmin _ _ _
      · rcases Option.isSome_iff_exists.mp (Bool.and_elim_right h2) with ⟨m, hm⟩
        have : (0 : ℚ) ≤ opts.maxDisplay.getD 0 := by
          rw [hm]; exact hmax m hm
        exact noMinus_intlStandardFormat this _ _ _
      · exact noMinus_intlCompactFormat (abs_nonneg _) _ _ _
      · exact noMinus_intlStandardFormat (abs_nonneg _) _ _ _
    · exact noMinus_intlCompactFormat (abs_nonneg _) _ _ _
  · unfold formatPercentToViewPercent
    dsimp only
    rw [if_neg hq]
    constructor
    · try dsimp only
      simp only [apply_ite (Prod.fst (α := String) (β := String))]
      try dsimp only
      split_ifs with h1 h2 h3
      · exact noMinus_intlStandardFormat hmin _ _ _
      · rcases Option.isSome_iff_exists.mp (Bool.and_elim_right h2) with ⟨m, hm⟩
        have : (0 : ℚ) ≤ opts.maxDisplay.getD 0 := by
          rw [hm]; exact hmax m hm
        exact noMinus_intlStandardFormat this _ _ _
      · exact noMinus_intlCompactFormat (abs_nonneg _) _ _ _
      · exact noMinus_intlStandardFormat (abs_nonneg _) _ _ _
    · exact noMinus_intlCompactFormat (abs_nonneg _) _ _ _

/-- Witness for the amended claim C5 at concrete inputs: minus three
halves for the numeric sign, one hundredth for the percent
embedding-free rendering. -/
theorem sign_spec_witness :
    ((-3 / 2 : ℚ) ≠ 0 ∧
      (formatNumberToViewNumber (.num (.fin (-3 / 2))) (some "$") {}).map
          (fun r => r.sign) =
        some (some (if jsRoundTo (-3 / 2) 2 < 0 then "-" else ""))) ∧
    ((1 / 100 : ℚ) * 100 ≠ 0 ∧ (0 : ℚ) ≤ 1 / 100 ∧
      '-' ∉ (formatPercentToViewPercent (.num (.fin (1 / 100))) {}).viewValue.data ∧
      '-' ∉ (formatPercentToViewPercent (.num (.fin (1 / 100))) {}).compact.data) :=
  ⟨⟨by norm_num, sign_spec.1 (-3 / 2) (some "$") {} (by norm_num)⟩,
   ⟨by norm_num, by norm_num,
    (sign_spec.2.2.2 (1 / 100) {} (by norm_num) (by norm_num)
      (fun m hm => Option.noConfusion hm)).1,
    (sign_spec.2.2.2 (1 / 100) {} (by norm_num) (by norm_num)
      (fun m hm => Option.noConfusion hm)).2⟩⟩

/-- Claim C4: both bigint wrappers default the required set to
{decimals}, drop that default entirely when the raw amount field is
nullish, always use an explicitly supplied list as given; so a call
omitting both amount and decimals yields no decimals-missing
diagnostic, while a call supplying the amount but omitting decimals
yields exactly the decimals-missing diagnostic at the configured
severity and no value. -/
theorem bigint_default_required_fields_spec :
    (∀ symv dec,
      effectiveRequiredBigIntFields none
        (some { bigIntValue := .undef, symbol := symv, decimals := dec }) = [] ∧
      effectiveRequiredBigIntFields none
        (some { bigIntValue := .null, symbol := symv, decimals := dec }) = []) ∧
    effectiveRequiredBigIntFields none none = [] ∧
    (∀ amt symv dec, isNullish amt = false →
      effectiveRequiredBigIntFields none
        (some { bigIntValue := amt, symbol := symv, decimals := dec }) =
        [BigIntField.decimals]) ∧
    (∀ rf inp, effectiveRequiredBigIntFields (some rf) inp = rf) ∧
    (∀ amt symv opts ctx sev, isNullish amt = false →
      robustFormatBigIntToViewNumber
        { input := some { bigIntValue := amt, symbol := symv, decimals := .undef },
          options := opts, context := ctx, requiredFields := none,
          missingRequiredFieldSeverity := sev } =
        { value := none,
          warnings :=
            if sev = .warning then ["decimals is required but received undefined."] else [],
          errors :=
            if sev = .error then ["decimals is required but received undefined."] else [] }) ∧
    (∀ amt symv cfg ctx sev, isNullish amt = false →
      robustFormatBigIntToViewTokenAmount
        { input := some { bigIntValue := amt, symbol := symv, decimals := .undef },
          config := cfg, context := ctx, requiredFields := none,
          missingRequiredFieldSeverity := sev } =
        { value := none,
          warnings :=
            if sev = .warning then ["decimals is required but received undefined."] else [],
          errors :=
            if sev = .error then ["decimals is required but received undefined."] else [] }) ∧
    robustFormatBigIntToViewNumber
      { input := some { bigIntValue := .undef, symbol := .undef, decimals := .undef } } =
      { value := none, warnings := [], errors := [] } ∧
    robustFormatBigIntToViewTokenAmount
      { input := some { bigIntValue := .undef, symbol := .undef, decimals := .undef } } =
      { value := none, warnings := [], errors := [] } := by
  refine ⟨fun symv dec => ⟨rfl, rfl⟩, rfl, fun amt symv dec h => ?_,
    fun rf inp => ?_, fun amt symv opts ctx sev h => ?_, fun amt symv cfg ctx sev h => ?_,
    by decide, by decide⟩
  · simp [effectiveRequiredBigIntFields, bigIntFieldLookup, h]
  · simp [effectiveRequiredBigIntFields]
  · have he : effectiveRequiredBigIntFields none
        (some { bigIntValue := amt, symbol := symv, decimals := .undef }) =
        [BigIntField.decimals] := by
      simp [effectiveRequiredBigIntFields, bigIntFieldLookup, h]
    cases sev <;>
      simp [robustFormatBigIntToViewNumber, he, reportMissingRequiredFields,
        bigIntFieldLookup, bigIntFieldName, isNullish, finalizeRobustFormattingResult]
  · have he : effectiveRequiredBigIntFields none
        (some { bigIntValue := amt, symbol := symv, decimals := .undef }) =
        [BigIntField.decimals] := by
      simp [effectiveRequiredBigIntFields, bigIntFieldLookup, h]
    cases sev <;>
      simp [robustFormatBigIntToViewTokenAmount, he, reportMissingRequiredFields,
        bigIntFieldLookup, bigIntFieldName, isNullish, finalizeRobustFormattingResult]

/-- Witness for claim C4 with the amount present as a bigint and the
severity left at its warning default. -/
theorem bigint_default_required_fields_spec_witness :
    isNullish (.big 5) = false ∧
    robustFormatBigIntToViewNumber
      { input := some { bigIntValue := .big 5, symbol := .undef, decimals := .undef } } =
      { value := none, warnings := ["decimals is required but received undefined."],
        errors := [] } :=
  ⟨by decide, by
    have := bigint_default_required_fields_spec.2.2.2.2.1 (.big 5) .undef {}
      "robustFormatBigIntToViewNumber" .warning (by decide)
    simpa using this⟩

/-- Reduction of a bind on an ok value, stated so rewriting can apply it
without reshaping the goal. -/
theorem exceptOkBind {α β : Type} (a : α) (f : α → Except String β) :
    (Except.ok a >>= f : Except String β) = f a := rfl

/-- Claim C6 counterexample: the token-amount formatter embeds the sign
into both viewValue and compact: minus five base units at zero decimals
renders viewValue "-5" and compact "-5.00" while also reporting the
separate sign field "-". -/
theorem token_amount_embeds_sign :
    (formatBigIntToViewTokenAmount
        (some { bigIntValue := some (.big (-5)), symbol := none, decimals := some 0 })
        {}).map (Option.map (fun r => (r.viewValue, r.compact, r.sign))) =
      .ok (some ("-5", "-5.00", some "-")) := by
  decide

set_option maxHeartbeats 1000000 in
/-- The numeric formatter builds viewValue and compact without looking at
the symbol argument. -/
theorem formatNumberToViewNumber_views_symbol_free :
    ∀ i s₁ s₂ o,
      (formatNumberToViewNumber i s₁ o).map (fun r => (r.viewValue, r.compact)) =
        (formatNumberToViewNumber i s₂ o).map (fun r => (r.viewValue, r.compact)) := by
  intro i s₁ s₂ o
  cases i with
  | undef => rfl
  | null => rfl
  | num n =>
    cases n with
    | fin q => by_cases hq : q = 0 <;> simp [formatNumberToViewNumber, hq]
    | nan => rfl
    | inf => rfl
    | ninf => rfl
  | str s =>
    cases hn : jsParseNumber s with
    | fin q => by_cases hq : q = 0 <;> simp [formatNumberToViewNumber, hn, hq]
    | nan => simp [formatNumberToViewNumber, hn]
    | inf => simp [formatNumberToViewNumber, hn]
    | ninf => simp [formatNumberToViewNumber, hn]

set_option maxHeartbeats 1000000 in
/-- The token-amount formatter builds viewValue and compact without
looking at the symbol field. -/
theorem formatBigIntToViewTokenAmount_views_symbol_free :
    ∀ bv dec s₁ s₂ cfg,
      (formatBigIntToViewTokenAmount
          (some { bigIntValue := bv, symbol := s₁, decimals := dec }) cfg).map
        (Option.map (fun r => (r.viewValue, r.compact))) =
      (formatBigIntToViewTokenAmount
          (some { bigIntValue := bv, symbol := s₂, decimals := dec }) cfg).map
        (Option.map (fun r => (r.viewValue, r.compact))) := by
  intro bv dec s₁ s₂ cfg
  cases bv with
  | none => cases dec <;> rfl
  | some bl =>
    cases dec with
    | none => rfl
    | some d =>
      cases hb : bigLikeToBigInt bl with
      | error e => simp only [formatBigIntToViewTokenAmount, hb]; rfl
      | ok n =>
        cases hn : jsParseNumber (formatUnits n d) with
        | fin q =>
          by_cases hq : q = 0
          · subst hq
            simp only [formatBigIntToViewTokenAmount, hb, exceptOkBind, hn]
            rfl
          · cases hfd : cfg.decimals with
            | some fd =>
              simp only [formatBigIntToViewTokenAmount, hb, exceptOkBind, hn, hfd,
                if_neg hq]
              rfl
            | none =>
              simp only [formatBigIntToViewTokenAmount, hb, exceptOkBind, hn, hfd,
                if_neg hq]
              rfl
        | nan => simp only [formatBigIntToViewTokenAmount, hb, exceptOkBind, hn]; rfl
        | inf => simp only [formatBigIntToViewTokenAmount, hb, exceptOkBind, hn]; rfl
        | ninf => simp only [formatBigIntToViewTokenAmount, hb, exceptOkBind, hn]; rfl

set_option maxHeartbeats 1000000 in
/-- The scaled-integer formatter inherits the symbol independence of the
numeric formatter for viewValue and compact. -/
theorem formatBigIntToViewNumber_views_symbol_free :
    ∀ inp dec s₁ s₂ o,
      (formatBigIntToViewNumber inp dec s₁ o).map
        (Option.map (fun r => (r.viewValue, r.compact))) =
      (formatBigIntToViewNumber inp dec s₂ o).map
        (Option.map (fun r => (r.viewValue, r.compact))) := by
  intro inp dec s₁ s₂ o
  have hview : ∀ (i : NumberInput) (t₁ t₂ : Option String) (o : FormatPriceNewOptions),
      ((formatNumberToViewNumber i t₁ o).getD {}).viewValue =
        ((formatNumberToViewNumber i t₂ o).getD {}).viewValue ∧
      ((formatNumberToViewNumber i t₁ o).getD {}).compact =
        ((formatNumberToViewNumber i t₂ o).getD {}).compact := by
    intro i t₁ t₂ o
    have h := formatNumberToViewNumber_views_symbol_free i t₁ t₂ o
    cases h1 : formatNumberToViewNumber i t₁ o with
    | none =>
      cases h2 : formatNumberToViewNumber i t₂ o with
      | none => exact ⟨rfl, rfl⟩
      | some r2 => rw [h1, h2] at h; cases h
    | some r1 =>
      cases h2 : formatNumberToViewNumber i t₂ o with
      | none => rw [h1, h2] at h; cases h
      | some r2 =>
        rw [h1, h2] at h
        simp only [Option.map_some'] at h
        have hp := Option.some.inj h
        simp only [h1, h2, Option.getD_some]
        exact ⟨congrArg Prod.fst hp, congrArg Prod.snd hp⟩
  cases dec with
  | none => cases inp <;> rfl
  | some d =>
    cases inp with
    | none => rfl
    | some inp =>
      cases inp with
      | big n =>
        have h := hview (NumberInput.str (formatUnits n d)) s₁ s₂ o
        show Except.ok (some
            (((formatNumberToViewNumber (NumberInput.str (formatUnits n d)) s₁ o).getD
                {}).viewValue,
             ((formatNumberToViewNumber (NumberInput.str (formatUnits n d)) s₁ o).getD
                {}).compact)) =
          Except.ok (some
            (((formatNumberToViewNumber (NumberInput.str (formatUnits n d)) s₂ o).getD
                {}).viewValue,
             ((formatNumberToViewNumber (NumberInput.str (formatUnits n d)) s₂ o).getD
                {}).compact))
        rw [h.1, h.2]
      | str s =>
        cases hs : jsBigIntOfString s with
        | none => simp only [formatBigIntToViewNumber, hs]; rfl
        | some n =>
          have h := hview (NumberInput.str (formatUnits n d)) s₁ s₂ o
          simp only [formatBigIntToViewNumber, hs]
          show Except.ok (some
              (((formatNumberToViewNumber (NumberInput.str (formatUnits n d)) s₁ o).getD
                  {}).viewValue,
               ((formatNumberToViewNumber (NumberInput.str (formatUnits n d)) s₁ o).getD
                  {}).compact)) =
            Except.ok (some
              (((formatNumberToViewNumber (NumberInput.str (formatUnits n d)) s₂ o).getD
                  {}).viewValue,
               ((formatNumberToViewNumber (NumberInput.str (formatUnits n d)) s₂ o).getD
                  {}).compact))
          rw [h.1, h.2]

set_option maxHeartbeats 1000000 in
/-- The percent formatter always reports the fixed unit symbol. -/
theorem formatPercentToViewPercent_symbol_fixed :
    ∀ i o, (formatPercentToViewPercent i o).symbol = "%" := by
  intro i o
  cases i with
  | undef => rfl
  | null => rfl
  | num n =>
    cases n with
    | fin q =>
      unfold formatPercentToViewPercent
      dsimp only
      split <;> rfl
    | nan => rfl
    | inf => rfl
    | ninf => rfl
  | str s =>
    cases hn : jsParseNumber s with
    | fin q =>
      unfold formatPercentToViewPercent
      dsimp only
      rw [hn]
      dsimp only
      split <;> rfl
    | nan =>
      unfold formatPercentToViewPercent
      dsimp only
      rw [hn]
    | inf =>
      unfold formatPercentToViewPercent
      dsimp only
      rw [hn]
    | ninf =>
      unfold formatPercentToViewPercent
      dsimp only
      rw [hn]

/-- Claim C6 amended: the formatters never embed the symbol argument:
viewValue and compact are independent of it for the numeric, the
token-amount and the scaled-integer formatter, and the percent
formatter always reports the fixed symbol "%"; but the sign is kept
separate only by the numeric and percent formatters, while the
token-amount formatter prefixes a minus into viewValue and compact for
negative values. -/
theorem symbol_never_embedded_spec :
    (∀ i s₁ s₂ o,
      (formatNumberToViewNumber i s₁ o).map (fun r => (r.viewValue, r.compact)) =
        (formatNumberToViewNumber i s₂ o).map (fun r => (r.viewValue, r.compact))) ∧
    (∀ bv dec s₁ s₂ cfg,
      (formatBigIntToViewTokenAmount
          (some { bigIntValue := bv, symbol := s₁, decimals := dec }) cfg).map
        (Option.map (fun r => (r.viewValue, r.compact))) =
      (formatBigIntToViewTokenAmount
          (some { bigIntValue := bv, symbol := s₂, decimals := dec }) cfg).map
        (Option.map (fun r => (r.viewValue, r.compact)))) ∧
    (∀ inp dec s₁ s₂ o,
      (formatBigIntToViewNumber inp dec s₁ o).map
        (Option.map (fun r => (r.viewValue, r.compact))) =
      (formatBigIntToViewNumber inp dec s₂ o).map
        (Option.map (fun r => (r.viewValue, r.compact)))) ∧
    (∀ i o, (formatPercentToViewPercent i o).symbol = "%") ∧
    (formatBigIntToViewTokenAmount
        (some { bigIntValue := some (.big (-2)), symbol := none, decimals := some 0 })
        {}).map (Option.map (fun r => r.compact)) = .ok (some "-2.00") :=
  ⟨formatNumberToViewNumber_views_symbol_free,
   formatBigIntToViewTokenAmount_views_symbol_free,
   formatBigIntToViewNumber_views_symbol_free,
   formatPercentToViewPercent_symbol_fixed,
   by decide⟩

set_option maxHeartbeats 1000000 in
/-- Claim C2: every robust wrapper is a total function of its options (it
never raises; thrown formatter faults are captured as error strings), and
whenever the returned errors list is non-empty the returned value is
absent.  Stated equivalently without a hypothesis: either the errors list
is empty or the value is absent. -/
theorem robust_wrappers_errors_imply_absent :
    (∀ p, (robustFormatNumberToViewNumber p).errors = [] ∨
      (robustFormatNumberToViewNumber p).value = none) ∧
    (∀ p, (robustFormatBigIntToViewNumber p).errors = [] ∨
      (robustFormatBigIntToViewNumber p).value = none) ∧
    (∀ p, (robustFormatBigIntToViewTokenAmount p).errors = [] ∨
      (robustFormatBigIntToViewTokenAmount p).value = none) ∧
    (∀ p, (robustFormatPercentToViewPercent p).errors = [] ∨
      (robustFormatPercentToViewPercent p).value = none) ∧
    (∀ p, (robustCalculateTokenValue p).errors = [] ∨
      (robustCalculateTokenValue p).value = none) := by
  refine ⟨fun p => ?_, fun p => ?_, fun p => ?_, fun p => ?_, fun p => ?_⟩
  · unfold robustFormatNumberToViewNumber
    generalize reportMissingRequiredFields NumField (numFieldLookup p.input) numFieldName
        p.requiredFields [] [] p.missingRequiredFieldSeverity = R
    obtain ⟨hm, w, e⟩ := R
    cases hm
    · dsimp only
      generalize normalizeNumberValue (numFieldLookup p.input .value) w e = N
      obtain ⟨nv, w1, e1⟩ := N
      generalize normalizeSymbol (numFieldLookup p.input .symbol) e1 = S
      obtain ⟨ns, e2⟩ := S
      dsimp only
      split_ifs with hlen
      · exact Or.inr rfl
      · cases nv <;>
          exact Or.inl (List.eq_nil_of_length_eq_zero (Nat.eq_zero_of_not_pos hlen))
    · exact Or.inr rfl
  · unfold robustFormatBigIntToViewNumber
    generalize reportMissingRequiredFields BigIntField (bigIntFieldLookup p.input)
        bigIntFieldName (some (effectiveRequiredBigIntFields p.requiredFields p.input))
        [] [] p.missingRequiredFieldSeverity = R
    obtain ⟨hm, w, e⟩ := R
    cases hm
    · dsimp only
      generalize normalizeBigIntValue (bigIntFieldLookup p.input .bigIntValue) w e = B
      obtain ⟨nb, w1, e1⟩ := B
      generalize normalizeSymbol (bigIntFieldLookup p.input .symbol) e1 = S
      obtain ⟨ns, e2⟩ := S
      generalize normalizeDecimals (bigIntFieldLookup p.input .decimals) w1 e2 = D
      obtain ⟨nd, w2, e3⟩ := D
      dsimp only
      split_ifs with hlen hnone
      · exact Or.inr rfl
      · exact Or.inr rfl
      · generalize formatBigIntToViewNumber (nb.map .big) nd ns p.options = F
        cases F with
        | error msg => exact Or.inr rfl
        | ok v =>
          exact Or.inl (List.eq_nil_of_length_eq_zero (Nat.eq_zero_of_not_pos hlen))
    · exact Or.inr rfl
  · unfold robustFormatBigIntToViewTokenAmount
    generalize reportMissingRequiredFields BigIntField (bigIntFieldLookup p.input)
        bigIntFieldName (some (effectiveRequiredBigIntFields p.requiredFields p.input))
        [] [] p.missingRequiredFieldSeverity = R
    obtain ⟨hm, w, e⟩ := R
    cases hm
    · dsimp only
      generalize normalizeBigIntValue (bigIntFieldLookup p.input .bigIntValue) w e = B
      obtain ⟨nb, w1, e1⟩ := B
      generalize normalizeSymbol (bigIntFieldLookup p.input .symbol) e1 = S
      obtain ⟨ns, e2⟩ := S
      generalize normalizeDecimals (bigIntFieldLookup p.input .decimals) w1 e2 = D
      obtain ⟨nd, w2, e3⟩ := D
      dsimp only
      split_ifs with hlen
      · exact Or.inr rfl
      · generalize formatBigIntToViewTokenAmount
            (some { bigIntValue := nb.map .big, symbol := ns, decimals := nd })
            p.config = F
        cases F with
        | error msg => exact Or.inr rfl
        | ok v =>
          exact Or.inl (List.eq_nil_of_length_eq_zero (Nat.eq_zero_of_not_pos hlen))
    · exact Or.inr rfl
  · unfold robustFormatPercentToViewPercent
    dsimp only
    generalize reportMissingRequiredFields PercentField (percentFieldLookup p.input)
        percentFieldName p.requiredFields [] [] p.missingRequiredFieldSeverity = R
    obtain ⟨hm, w, e⟩ := R
    cases hm
    · dsimp only
      generalize normalizeNumberValue (percentFieldLookup p.input .value) w e = N
      obtain ⟨nv, w1, e1⟩ := N
      generalize normalizeScaleFactor "multiplier"
          (if p.multiplier = .undef then JSValue.num (.fin 1) else p.multiplier) w1 e1 = M
      obtain ⟨nm, w2, e2⟩ := M
      generalize normalizeScaleFactor "divider"
          (if p.divider = .undef then JSValue.num (.fin 1) else p.divider) w2 e2 = D
      obtain ⟨nd, w3, e3⟩ := D
      dsimp only
      generalize (if nd = some 0 then e3 ++ ["divider cannot be zero."] else e3) = E
      split_ifs with hlen
      · exact Or.inr rfl
      · cases nv
        · exact Or.inr rfl
        · cases nm
          · exact Or.inr rfl
          · cases nd <;>
              exact Or.inl (List.eq_nil_of_length_eq_zero (Nat.eq_zero_of_not_pos hlen))
    · exact Or.inr rfl
  · unfold robustCalculateTokenValue
    generalize reportMissingRequiredFields CalcField (calcFieldLookup p.input) calcFieldName
        p.requiredFields [] [] p.missingRequiredFieldSeverity = R
    obtain ⟨hm, w, e⟩ := R
    cases hm
    · dsimp only
      generalize normalizeBigIntValue (calcFieldLookup p.input .tokenAmount) w e = A
      obtain ⟨na, w1, e1⟩ := A
      dsimp only
      generalize normalizeDecimals (calcFieldLookup p.input .tokenDecimals) w1 e1 = T
      obtain ⟨ntd, w2, e2⟩ := T
      dsimp only
      generalize normalizeDecimals (calcFieldLookup p.input .tokenPriceDecimals) w2 e2 = U
      obtain ⟨npd, w3, e3⟩ := U
      dsimp only
      generalize normalizeTokenPriceToScaledBigInt (calcFieldLookup p.input .tokenPrice)
          npd w3 e3 = P
      obtain ⟨np, w4, e4⟩ := P
      dsimp only
      split_ifs
      all_goals try exact Or.inr rfl
      all_goals
        rename_i hlen
        cases na with
        | none => exact Or.inr rfl
        | some a =>
          cases np with
          | none => exact Or.inr rfl
          | some pr =>
            cases ntd with
            | none => exact Or.inr rfl
            | some td =>
              cases npd with
              | none => exact Or.inr rfl
              | some pd =>
                exact Or.inl
                  (List.eq_nil_of_length_eq_zero (Nat.eq_zero_of_not_pos hlen))
    · exact Or.inr rfl
